import Mathlib

/-!
# HDF5Wrapper: the chunked dataset driver and the attribute wrappers

A shallow embedding of `src/src/HDF5Wrapper.h` (class `H5OutputFile`).

The header only talks to the HDF5 library, so a member function is embedded as
the sequence of calls its body issues (a `Run`: the calls in program order and
how the body ended).  What a library call returns is not decided by the header;
it is an input of the embedding (`Hdf5Returns`, `AttrReturns`, `AttrLibrary`,
`GroupLibrary`), and every theorem quantifies over it.  A wrapper whose body is
one call of another member function is embedded as that call (`NdCall`): the
routine overload resolution selects and the value each of its parameters
receives.

Build configuration.  The embedding is of the header compiled without
`USEPARALLELHDF`.  With that symbol defined the class body does not parse (the
declaration of `_set_mpi_dataset_properties` has no terminating semicolon), the
driver names `mpi_comm_write` and `NProcsWrite`, which the header does not
declare, and the three helper calls that would set `dspace_id` and
`memspace_id` are commented out in the driver, so both handles would be read
before any assignment.  `USEHDFCOMPRESSION` is a parameter (`Build`).

Machine integers.  `hid_t` and `herr_t` are signed 64-bit and 32-bit; only
their sign and equality with `-1` are inspected, so they are `Int`.  `hsize_t`
is unsigned 64-bit; the driver performs no arithmetic on it, so it is `Nat`.
-/

set_option linter.unusedVariables false

namespace HDF5Wrapper

/-! ## Library types -/

abbrev hid_t := Int
abbrev herr_t := Int
abbrev hsize_t := Nat

/-- Address of a caller-owned buffer (`T *data`, `void *data`). -/
abbrev Ptr := Nat

/-- Value of the library constant `H5P_DEFAULT`. -/
def H5P_DEFAULT : hid_t := 0

/-- The element types `hdf5_type` is overloaded on. -/
inductive CType
  | float
  | double
  | short
  | int
  | long
  | long_long
  | unsigned_short
  | unsigned_int
  | unsigned_long
  | unsigned_long_long
  | string
  deriving DecidableEq, Repr

/-- The type identifiers exported by `hdf5.h`.  They are run-time values of the
library, hence a parameter of the embedding. -/
structure Hdf5Types where
  H5T_NATIVE_FLOAT : hid_t
  H5T_NATIVE_DOUBLE : hid_t
  H5T_NATIVE_SHORT : hid_t
  H5T_NATIVE_INT : hid_t
  H5T_NATIVE_LONG : hid_t
  H5T_NATIVE_LLONG : hid_t
  H5T_NATIVE_USHORT : hid_t
  H5T_NATIVE_UINT : hid_t
  H5T_NATIVE_ULONG : hid_t
  H5T_NATIVE_ULLONG : hid_t
  H5T_C_S1 : hid_t
  deriving DecidableEq, Repr

/-- The overload set `hdf5_type(T dummy)` (lines 19-29). -/
def hdf5_type (t : Hdf5Types) : CType → hid_t
  | .float => t.H5T_NATIVE_FLOAT
  | .double => t.H5T_NATIVE_DOUBLE
  | .short => t.H5T_NATIVE_SHORT
  | .int => t.H5T_NATIVE_INT
  | .long => t.H5T_NATIVE_LONG
  | .long_long => t.H5T_NATIVE_LLONG
  | .unsigned_short => t.H5T_NATIVE_USHORT
  | .unsigned_int => t.H5T_NATIVE_UINT
  | .unsigned_long => t.H5T_NATIVE_ULONG
  | .unsigned_long_long => t.H5T_NATIVE_ULLONG
  | .string => t.H5T_C_S1

/-- The function `hdf5_type_from_string` (lines 30-41). -/
def hdf5_type_from_string (t : Hdf5Types) (dummy : String) : hid_t :=
  if dummy = "float32" then t.H5T_NATIVE_FLOAT
  else if dummy = "float64" then t.H5T_NATIVE_DOUBLE
  else if dummy = "int16" then t.H5T_NATIVE_SHORT
  else if dummy = "int32" then t.H5T_NATIVE_INT
  else if dummy = "int64" then t.H5T_NATIVE_LLONG
  else if dummy = "uint16" then t.H5T_NATIVE_USHORT
  else if dummy = "uint32" then t.H5T_NATIVE_UINT
  else if dummy = "uint64" then t.H5T_NATIVE_ULLONG
  else t.H5T_C_S1

/-- Selection operators of `H5Sselect_hyperslab`; the header uses only the first. -/
inductive H5S_seloper_t
  | H5S_SELECT_SET
  | H5S_SELECT_OR
  | H5S_SELECT_AND
  deriving DecidableEq, Repr

/-- Dataspace classes handed to `H5Screate`. -/
inductive H5S_class_t
  | H5S_SCALAR
  | H5S_SIMPLE
  deriving DecidableEq, Repr

/-- String padding modes handed to `H5Tset_strpad`. -/
inductive H5T_str_t
  | H5T_STR_NULLTERM
  | H5T_STR_NULLPAD
  | H5T_STR_SPACEPAD
  deriving DecidableEq, Repr

/-- Kinds of identifier the library tells apart (`H5Iget_type`); `H5I_BADID` is
the answer for a handle that is not, or no longer, open. -/
inductive H5I_type_t
  | H5I_GROUP
  | H5I_DATASET
  | H5I_ATTR
  | H5I_DATASPACE
  | H5I_BADID
  deriving DecidableEq, Repr

/-- Object representation of one element of a numeric type, read as a number. -/
abbrev Bits := Nat

/-- What a buffer handed to, or filled by, the library holds: elements of a
numeric type, or the characters of one fixed-length string.  A `std::string` is
a `String` whose characters stand for its `char`s. -/
inductive Payload
  | elements (xs : List Bits)
  | chars (s : String)
  deriving DecidableEq, Repr

/-- The datatype an attribute is created with: a predefined type of the library,
used as it is, or a copy of `H5T_C_S1` resized to `size` characters. -/
inductive Datatype
  | predefined (type_id : hid_t)
  | c_string (size : Nat)
  deriving DecidableEq, Repr

/-- The dataspace an attribute is created with. -/
inductive Dataspace
  | scalar
  | simple (dims : List hsize_t)
  deriving DecidableEq, Repr

/-- Number of elements of a dataspace. -/
def Dataspace.npoints : Dataspace → Nat
  | .scalar => 1
  | .simple dims => dims.foldl (fun acc d => acc * d) 1

/-- An attribute as the library holds it once created and written. -/
structure Attribute where
  type : Datatype
  space : Dataspace
  payload : Payload
  deriving DecidableEq, Repr

/-- A value `read_attribute<T>` returns: a numeric `T` or a `std::string`. -/
inductive Value
  | numeric (bits : Bits)
  | string (s : String)
  deriving DecidableEq, Repr

/-! ## Calls and runs -/

/-- One call issued by a member function, with the arguments it is given.  A
`NULL` array argument is `none`.  `invalid_argument what` is the statement
`throw std::invalid_argument(what)`, `cerr message` is
`std::cerr << message << std::endl`, and `MPI_Abort errorcode` is
`MPI_Abort(MPI_COMM_WORLD, errorcode)`. -/
inductive Call
  | H5Screate_simple (rank : Int) (dims : List hsize_t)
  | _set_compression (rank : Int) (chunks : List hsize_t)
  | H5Dcreate (loc_id : hid_t) (name : String) (type_id space_id lcpl_id dcpl_id dapl_id : hid_t)
  | H5Pclose (plist_id : hid_t)
  | H5Sselect_hyperslab (space_id : hid_t) (op : H5S_seloper_t) (start : List hsize_t)
      (stride : Option (List hsize_t)) (count : List hsize_t) (block : Option (List hsize_t))
  | H5Dwrite (dset_id mem_type_id mem_space_id file_space_id plist_id : hid_t) (buf : Ptr)
  | H5Sclose (space_id : hid_t)
  | H5Dclose (dset_id : hid_t)
  | H5Gclose (group_id : hid_t)
  | H5Aclose (attr_id : hid_t)
  | H5Oopen (loc_id : hid_t) (name : String) (lapl_id : hid_t)
  | H5Oclose (object_id : hid_t)
  | H5Screate (type : H5S_class_t)
  | H5Sset_extent_simple (space_id : hid_t) (rank : Int) (dims : List hsize_t)
      (max : Option (List hsize_t))
  | H5Tcopy (type_id : hid_t)
  | H5Tset_size (type_id : hid_t) (size : Nat)
  | H5Tset_strpad (type_id : hid_t) (strpad : H5T_str_t)
  | H5Acreate (loc_id : hid_t) (attr_name : String) (type_id space_id acpl_id aapl_id : hid_t)
  | H5Awrite (attr_id mem_type_id : hid_t) (buf : Payload)
  | H5Aread (attr_id mem_type_id : hid_t)
  | H5Aget_space (attr_id : hid_t)
  | H5Sget_simple_extent_npoints (space_id : hid_t)
  | get_attribute (name : String)
  | _do_read_string (attr type : hid_t)
  | close_hdf_ids (ids : List hid_t)
  | H5Lexists (loc_id : hid_t) (name : String) (lapl_id : hid_t)
  | H5Gcreate (loc_id : hid_t) (name : String) (lcpl_id gcpl_id gapl_id : hid_t)
  | invalid_argument (what : String)
  | cerr (message : String)
  | MPI_Abort (errorcode : Int)
  | abort
  | io_error (message : String)
  deriving DecidableEq, Repr

/-- How a member function's body ended. -/
inductive Outcome
  /-- the body ran to its end -/
  | returned
  /-- the body called `io_error`, which does not return -/
  | aborted
  /-- a C++ exception left the body -/
  | threw
  /-- the body read outside an array: no defined behaviour from there on -/
  | undefined
  deriving DecidableEq, Repr

/-- The calls a body issued, in program order, and how it ended. -/
structure Run where
  calls : List Call
  outcome : Outcome
  deriving DecidableEq, Repr

def Call.isH5Dwrite : Call → Bool
  | .H5Dwrite .. => true
  | _ => false

def Call.isH5Sselect_hyperslab : Call → Bool
  | .H5Sselect_hyperslab .. => true
  | _ => false

def Call.isH5Sclose : Call → Bool
  | .H5Sclose .. => true
  | _ => false

def Call.isH5Dclose : Call → Bool
  | .H5Dclose .. => true
  | _ => false

def Call.isio_error : Call → Bool
  | .io_error .. => true
  | _ => false

/-- The handle a call releases, for the four close primitives of the handle
kinds a chain can hold. -/
def Call.released : Call → Option hid_t
  | .H5Aclose id => some id
  | .H5Gclose id => some id
  | .H5Dclose id => some id
  | .H5Sclose id => some id
  | _ => none

/-- The attribute handle a call reads from. -/
def Call.read_from : Call → Option hid_t
  | .H5Aread attr _ => some attr
  | ._do_read_string attr _ => some attr
  | .H5Aget_space attr => some attr
  | _ => none

/-- The handle list a call hands to `close_hdf_ids`. -/
def Call.handed_to_close_hdf_ids : Call → Option (List hid_t)
  | .close_hdf_ids ids => some ids
  | _ => none

/-- Compile-time switches of the header that the embedding keeps. -/
structure Build where
  USEHDFCOMPRESSION : Bool
  deriving DecidableEq, Repr

/-- What the library (and the helper `_set_compression`) hand back to one run
of `write_dataset_nd`.  Each of them is called at most once per run. -/
structure Hdf5Returns where
  H5Screate_simple : hid_t
  _set_compression : hid_t
  H5Dcreate : hid_t
  H5Sselect_hyperslab : herr_t
  H5Dwrite : herr_t
  deriving DecidableEq, Repr

/-- What the library hands back to one run of a `write_attribute` overload.
Each of them is called at most once per run. -/
structure AttrReturns where
  H5Tcopy : hid_t
  H5Oopen : hid_t
  H5Screate : hid_t
  H5Sset_extent_simple : herr_t
  H5Acreate : hid_t
  H5Awrite : herr_t
  deriving DecidableEq, Repr

/-- A run of a `write_attribute` overload, and the attribute `name` that the
object `parent` holds afterwards when the body ran to its end. -/
structure WriteRun where
  calls : List Call
  outcome : Outcome
  written : Option Attribute
  deriving DecidableEq, Repr

/-- The library and the absent path resolver as `read_attribute` sees them:
the handle chain `get_attribute` leaves in `ids` (root first, the attribute
last), the attribute an open attribute handle denotes, the dataspace handle
`H5Aget_space` returns, and the kind of every handle. -/
structure AttrLibrary where
  get_attribute : String → List hid_t
  attr_of : hid_t → Option Attribute
  H5Aget_space : hid_t → hid_t
  H5Iget_type : hid_t → H5I_type_t

/-- A run of `read_attribute` or `read_attribute_v` with the value returned;
`none` is a value the embedding does not determine. -/
structure ReadRun (α : Type) where
  calls : List Call
  outcome : Outcome
  val : Option α

/-- Conversion of a 64-bit count to `int`. -/
def toInt32 (n : Int) : Int :=
  (n + 2 ^ 31) % 2 ^ 32 - 2 ^ 31

/-- Library: what `H5Aread(attr_id, mem_type_id, buf)` puts in the buffer.  The
elements are copied unchanged when `mem_type_id` is the predefined type the
attribute has.  A read that needs a type conversion, or from a handle that
denotes no attribute, is not described (`none`). -/
def H5Aread (lib : AttrLibrary) (attr_id mem_type_id : hid_t) : Option (List Bits) :=
  match lib.attr_of attr_id with
  | some ⟨.predefined type_id, _, .elements xs⟩ =>
    if type_id = mem_type_id then some xs else none
  | _ => none

/-- Library: `H5Sget_simple_extent_npoints` on the dataspace of an attribute
handle; negative for a handle that denotes no attribute. -/
def H5Sget_simple_extent_npoints (lib : AttrLibrary) (attr_id : hid_t) : Int :=
  match lib.attr_of attr_id with
  | some a => (a.space.npoints : Int)
  | none => -1

namespace H5OutputFile

/-- Default of the member `HDFOUTPUTCHUNKSIZE` (line 65). -/
def HDFOUTPUTCHUNKSIZE : Nat := 8192

/-- Modelled from the spec: the extent `_set_chunks` plans on (section 4.2, "if
distributed mode is active, substitute the true global extent (after
distributed reduction) for the first axis before planning").  `dims` points at
`rank` extents; `mpi_hdf_dims_tot` is the extra argument of the
`USEPARALLELHDF` signature, `none` without it. -/
def planned_extent (rank : Int) (dims : List hsize_t)
    (mpi_hdf_dims_tot : Option (List hsize_t)) (flag_parallel : Bool) : List hsize_t :=
  match mpi_hdf_dims_tot, flag_parallel, dims.take rank.toNat with
  | some (g :: _), true, _ :: rest => g :: rest
  | _, _, local_extent => local_extent

/-- Modelled from the spec: `_set_chunks` is declared in the header (lines
100-106) and defined elsewhere.  Section 4.2: if any axis extent is zero the
answer is "no chunking" (`none`); otherwise the configured chunk size is
clamped to the extent on every axis. -/
def _set_chunks (chunkSize : Nat) (rank : Int) (dims : List hsize_t)
    (mpi_hdf_dims_tot : Option (List hsize_t)) (flag_parallel : Bool) :
    Option (List hsize_t) :=
  let extent := planned_extent rank dims mpi_hdf_dims_tot flag_parallel
  if extent.any (fun e => e == 0) then none
  else some (extent.map (fun e => min chunkSize e))

/-- What `_set_mpi_dim_and_offset` leaves in its output arguments, along the
distributed axis. -/
structure MpiDims where
  /-- table of every participant's local extent -/
  mpi_hdf_dims : List hsize_t
  /-- global extent -/
  mpi_hdf_dims_tot : hsize_t
  /-- offset of the calling participant -/
  dims_offset : hsize_t
  deriving DecidableEq, Repr

/-- Modelled from the spec: `_set_mpi_dim_and_offset` is declared in the header
(lines 79-86) and defined elsewhere.  Section 4.3: an all-gather of each
participant's local extent on the distributed axis (`gathered`, by participant
rank), then the global extent is accumulated over all participants and the
offset of participant `ThisTask` over the participants of lower rank. -/
def _set_mpi_dim_and_offset (gathered : List hsize_t) (ThisTask : Nat) : MpiDims :=
  { mpi_hdf_dims := gathered
    mpi_hdf_dims_tot := gathered.foldl (fun acc l => acc + l) 0
    dims_offset := (gathered.take ThisTask).foldl (fun acc l => acc + l) 0 }

/-- The typed driver `write_dataset_nd(name, rank, dims, T *data, count, start,
memtype_id, filetype_id, flag_parallel, flag_first_dim_parallel, flag_hyperslab,
flag_collective)` (lines 505-580), built without `USEPARALLELHDF`.

* `std::vector<hsize_t> chunks(rank)` throws `std::length_error` for a negative
  `rank` (the `int` converts to a `size_type` above `max_size()`).
* `chunks` starts as `rank` zeros and is handed to `_set_chunks` by reference;
  it keeps the zeros when no chunk shape is planned.
* `dims[0]` is read whatever `rank` is; on an empty array that read has no
  defined behaviour.
* the value of `H5Sselect_hyperslab` is stored in a block-local `ret` and never
  inspected; the value of `H5Screate_simple` is never compared with zero. -/
def write_dataset_nd (b : Build) (t : Hdf5Types) (r : Hdf5Returns) (file_id : hid_t)
    (T : CType) (name : String) (rank : Int) (dims : List hsize_t) (data : Ptr)
    (count start : List hsize_t) (memtype_id filetype_id : hid_t)
    (flag_parallel flag_first_dim_parallel flag_hyperslab flag_collective : Bool) : Run :=
  if rank < 0 then ⟨[], .threw⟩ else
  let chunks := (_set_chunks HDFOUTPUTCHUNKSIZE rank dims none flag_parallel).getD
    (List.replicate rank.toNat 0)
  let memtype_id := if memtype_id = -1 then hdf5_type t T else memtype_id
  let filetype_id := if filetype_id < 0 then memtype_id else filetype_id
  let dspace_id := r.H5Screate_simple
  let memspace_id := dspace_id
  let prop_id := if b.USEHDFCOMPRESSION then r._set_compression else H5P_DEFAULT
  let dset_id := r.H5Dcreate
  let create :=
    [Call.H5Screate_simple rank dims]
      ++ (if b.USEHDFCOMPRESSION then [Call._set_compression rank chunks] else [])
      ++ [Call.H5Dcreate file_id name filetype_id dspace_id H5P_DEFAULT prop_id H5P_DEFAULT]
  if dset_id < 0 then
    ⟨create ++ [Call.io_error ("Failed to create dataset: " ++ name)], .aborted⟩
  else
    match dims with
    | [] => ⟨create ++ [Call.H5Pclose prop_id], .undefined⟩
    | d0 :: _ =>
      let prop_id' := H5P_DEFAULT
      let iwrite := decide (0 < d0)
      let select :=
        if !count.isEmpty && !start.isEmpty then
          [Call.H5Sselect_hyperslab dspace_id .H5S_SELECT_SET start none count none]
        else []
      let write :=
        if iwrite then [Call.H5Dwrite dset_id memtype_id memspace_id dspace_id prop_id' data]
        else []
      if iwrite && decide (r.H5Dwrite < 0) then
        ⟨create ++ [Call.H5Pclose prop_id] ++ select ++ write
            ++ [Call.io_error ("Failed to write dataset: " ++ name)], .aborted⟩
      else
        ⟨create ++ [Call.H5Pclose prop_id] ++ select ++ write
            ++ [Call.H5Pclose prop_id', Call.H5Sclose dspace_id, Call.H5Dclose dset_id],
          .returned⟩

/-- The scalar template `write_attribute(parent, name, const T &data)` (lines
677-701) for a numeric `T`; `data` is the object representation of the value.
(For a `std::string` argument overload resolution selects the non-template
overload, `write_attribute_string`.) -/
def write_attribute (t : Hdf5Types) (r : AttrReturns) (file_id : hid_t) (T : CType)
    (parent name : String) (data : Bits) : WriteRun :=
  let dtype_id := hdf5_type t T
  let parent_id := r.H5Oopen
  let opened := [Call.H5Oopen file_id parent H5P_DEFAULT]
  if parent_id < 0 then
    ⟨opened ++ [Call.io_error ("Unable to open object to write attribute: " ++ name)],
      .aborted, none⟩
  else
    let dspace_id := r.H5Screate
    let attr_id := r.H5Acreate
    let created := opened ++ [Call.H5Screate .H5S_SCALAR,
      Call.H5Acreate parent_id name dtype_id dspace_id H5P_DEFAULT H5P_DEFAULT]
    if attr_id < 0 then
      ⟨created ++ [Call.io_error ("Unable to create attribute " ++ name ++ " on object "
          ++ parent)], .aborted, none⟩
    else
      let wrote := created ++ [Call.H5Awrite attr_id dtype_id (.elements [data])]
      if r.H5Awrite < 0 then
        ⟨wrote ++ [Call.io_error ("Unable to write attribute " ++ name ++ " on object "
            ++ parent)], .aborted, none⟩
      else
        ⟨wrote ++ [Call.H5Aclose attr_id, Call.H5Sclose dspace_id, Call.H5Oclose parent_id],
          .returned, some ⟨.predefined dtype_id, .scalar, .elements [data]⟩⟩

/-- The vector template `write_attribute(parent, name, const std::vector<T> &data)`
(lines 649-675) for a numeric `T`; `data` holds the object representations of
the elements.  `data[0]` is read first: on an empty vector that read is
undefined.  (For `T = std::string` the library would copy one character out of
each string object; the embedding does not describe that.) -/
def write_attribute_vector (t : Hdf5Types) (r : AttrReturns) (file_id : hid_t) (T : CType)
    (parent name : String) (data : List Bits) : WriteRun :=
  match data with
  | [] => ⟨[], .undefined, none⟩
  | _ :: _ =>
    let dtype_id := hdf5_type t T
    let size : hsize_t := data.length
    let parent_id := r.H5Oopen
    let opened := [Call.H5Oopen file_id parent H5P_DEFAULT]
    if parent_id < 0 then
      ⟨opened ++ [Call.io_error ("Unable to open object to write attribute: " ++ name)],
        .aborted, none⟩
    else
      let dspace_id := r.H5Screate
      let attr_id := r.H5Acreate
      let created := opened ++ [Call.H5Screate .H5S_SIMPLE,
        Call.H5Sset_extent_simple dspace_id 1 [size] none,
        Call.H5Acreate parent_id name dtype_id dspace_id H5P_DEFAULT H5P_DEFAULT]
      if attr_id < 0 then
        ⟨created ++ [Call.io_error ("Unable to create attribute " ++ name ++ " on object "
            ++ parent)], .aborted, none⟩
      else
        let wrote := created ++ [Call.H5Awrite attr_id dtype_id (.elements data)]
        if r.H5Awrite < 0 then
          ⟨wrote ++ [Call.io_error ("Unable to write attribute " ++ name ++ " on object "
              ++ parent)], .aborted, none⟩
        else
          ⟨wrote ++ [Call.H5Aclose attr_id, Call.H5Sclose dspace_id, Call.H5Oclose parent_id],
            .returned, some ⟨.predefined dtype_id, .simple [size], .elements data⟩⟩

/-- The non-template overload `write_attribute(parent, name, std::string data)`
(lines 703-730).  An empty `data` is replaced by one blank before the type is
sized. -/
def write_attribute_string (t : Hdf5Types) (r : AttrReturns) (file_id : hid_t)
    (parent name : String) (data : String) : WriteRun :=
  let dtype_id := r.H5Tcopy
  let data := if data.length = 0 then " " else data
  let typed := [Call.H5Tcopy t.H5T_C_S1, Call.H5Tset_size dtype_id data.length,
    Call.H5Tset_strpad dtype_id .H5T_STR_NULLTERM]
  let parent_id := r.H5Oopen
  let opened := typed ++ [Call.H5Oopen file_id parent H5P_DEFAULT]
  if parent_id < 0 then
    ⟨opened ++ [Call.io_error ("Unable to open object to write attribute: " ++ name)],
      .aborted, none⟩
  else
    let dspace_id := r.H5Screate
    let attr_id := r.H5Acreate
    let created := opened ++ [Call.H5Screate .H5S_SCALAR,
      Call.H5Acreate parent_id name dtype_id dspace_id H5P_DEFAULT H5P_DEFAULT]
    if attr_id < 0 then
      ⟨created ++ [Call.io_error ("Unable to create attribute " ++ name ++ " on object "
          ++ parent)], .aborted, none⟩
    else
      let wrote := created ++ [Call.H5Awrite attr_id dtype_id (.chars data)]
      if r.H5Awrite < 0 then
        ⟨wrote ++ [Call.io_error ("Unable to write attribute " ++ name ++ " on object "
            ++ parent)], .aborted, none⟩
      else
        ⟨wrote ++ [Call.H5Aclose attr_id, Call.H5Sclose dspace_id, Call.H5Oclose parent_id],
          .returned, some ⟨.c_string data.length, .scalar, .chars data⟩⟩

/-- Modelled from the spec: `_do_read_string` is declared in the header (line
144, "wrapper for reading string") and defined elsewhere.  Section 8: reading a
written scalar attribute back yields the written value; the model hands back
the characters the attribute holds. -/
def _do_read_string (lib : AttrLibrary) (attr type : hid_t) : Option String :=
  match lib.attr_of attr with
  | some ⟨.c_string _, _, .chars s⟩ => some s
  | _ => none

/-- The member template `_do_read<T>(attr, type, val)` (lines 133-142): the calls
it issues and the value left in `val`.  The scalar `val` holds one element; a
read that delivers another number of elements leaves it undetermined. -/
def _do_read (t : Hdf5Types) (lib : AttrLibrary) (T : CType) (attr type : hid_t) :
    List Call × Option Value :=
  if hdf5_type t T = t.H5T_C_S1 then
    ([Call._do_read_string attr type], (_do_read_string lib attr type).map Value.string)
  else
    ([Call.H5Aread attr type],
      match H5Aread lib attr type with
      | some [v] => some (Value.numeric v)
      | _ => none)

/-- The member template `_do_read_v<T>(attr, type, val)` (lines 146-153): the
calls it issues, how it ends and the elements left in `val`.  `npoints` is an
`int`; `val.resize(npoints)` throws for a negative count and fills `val` with
zero elements otherwise, and a read of more elements than `val` holds is
undefined. -/
def _do_read_v (lib : AttrLibrary) (attr type : hid_t) :
    List Call × Outcome × Option (List Bits) :=
  let space := lib.H5Aget_space attr
  let npoints := toInt32 (H5Sget_simple_extent_npoints lib attr)
  let counted := [Call.H5Aget_space attr, Call.H5Sget_simple_extent_npoints space]
  if npoints < 0 then (counted, .threw, none)
  else
    match H5Aread lib attr type with
    | some xs =>
      if xs.length ≤ npoints.toNat then
        (counted ++ [Call.H5Aread attr type, Call.H5Sclose space], .returned,
          some (xs ++ List.replicate (npoints.toNat - xs.length) 0))
      else (counted ++ [Call.H5Aread attr type], .undefined, none)
    | none => (counted ++ [Call.H5Aread attr type, Call.H5Sclose space], .returned, none)

/-- Modelled from the spec: `close_hdf_ids` is declared in the header (line 205,
"close hids stored in vector") and defined elsewhere.  Section 4.1: one
operation closes all handles of a chain, dispatching on the kind of each handle
to the matching close primitive, and tolerates handles that are already
closed. -/
def close_hdf_ids (lib : AttrLibrary) (ids : List hid_t) : List Call :=
  ids.filterMap fun id =>
    match lib.H5Iget_type id with
    | .H5I_GROUP => some (Call.H5Gclose id)
    | .H5I_DATASET => some (Call.H5Dclose id)
    | .H5I_ATTR => some (Call.H5Aclose id)
    | .H5I_DATASPACE => some (Call.H5Sclose id)
    | .H5I_BADID => none

/-- The member template `read_attribute<T>(name)` (lines 597-619).  `ids[0]` is
read after the reversal; on an empty chain that read has no defined
behaviour. -/
def read_attribute (t : Hdf5Types) (lib : AttrLibrary) (T : CType) (name : String) :
    ReadRun Value :=
  let ids := lib.get_attribute name
  let ids := ids.reverse
  let type := hdf5_type t T
  match ids with
  | [] => ⟨[Call.get_attribute name], .undefined, none⟩
  | attr :: rest =>
    let rd := _do_read t lib T attr type
    ⟨[Call.get_attribute name] ++ rd.1 ++ [Call.H5Aclose attr, Call.close_hdf_ids rest]
        ++ close_hdf_ids lib rest, .returned, rd.2⟩

/-- The member template `read_attribute_v<T>(name)` (lines 621-643). -/
def read_attribute_v (t : Hdf5Types) (lib : AttrLibrary) (T : CType) (name : String) :
    ReadRun (List Bits) :=
  let ids := lib.get_attribute name
  let ids := ids.reverse
  let type := hdf5_type t T
  match ids with
  | [] => ⟨[Call.get_attribute name], .undefined, none⟩
  | attr :: rest =>
    match _do_read_v lib attr type with
    | (calls, .returned, val) =>
      ⟨[Call.get_attribute name] ++ calls ++ [Call.H5Aclose attr, Call.close_hdf_ids rest]
          ++ close_hdf_ids lib rest, .returned, val⟩
    | (calls, outcome, _) => ⟨[Call.get_attribute name] ++ calls, outcome, none⟩

/-- The element type a call hands to dataset creation. -/
def Call.dataset_type : Call → Option hid_t
  | .H5Dcreate _ _ type_id _ _ _ _ => some type_id
  | _ => none

/-- The memory type a call hands to the dataset write. -/
def Call.write_mem_type : Call → Option hid_t
  | .H5Dwrite _ mem_type_id _ _ _ _ => some mem_type_id
  | _ => none

/-- The member `io_error(message)` (lines 68-74): the statements of its body in
order.  `USEMPI` is the compile-time switch that adds the `MPI_Abort`; the
process ends at the first of `MPI_Abort` and `abort` that does not return. -/
def io_error (USEMPI : Bool) (message : String) : Run :=
  ⟨[Call.cerr message] ++ (if USEMPI then [Call.MPI_Abort 1] else []) ++ [Call.abort],
    .aborted⟩

/-- The library as `create_group` sees it: `H5Lexists` answers an `htri_t`
(positive: the link exists, zero: it does not, negative: the lookup failed) and
`H5Gcreate` a handle. -/
structure GroupLibrary where
  H5Lexists : hid_t → String → Int
  H5Gcreate : hid_t → String → hid_t

/-- A run of `create_group` with the handle it returns. -/
structure GroupRun where
  calls : List Call
  outcome : Outcome
  result : Option hid_t
  deriving DecidableEq, Repr

/-- The member `create_group(groupname)` (lines 183-191).  The local `group_id`
is declared without an initial value and handed to `H5Lexists` as the location;
`uninitialized_group_id` is the value it happens to hold.  The condition is the
`htri_t` itself, so every non-zero answer, a negative one included, throws. -/
def create_group (lib : GroupLibrary) (file_id : hid_t) (uninitialized_group_id : hid_t)
    (groupname : String) : GroupRun :=
  let group_id := uninitialized_group_id
  if lib.H5Lexists group_id groupname ≠ 0 then
    ⟨[Call.H5Lexists group_id groupname H5P_DEFAULT,
      Call.invalid_argument ("Group " ++ groupname ++ "already present, not creating group")],
      .threw, none⟩
  else
    let group_id := lib.H5Gcreate file_id groupname
    ⟨[Call.H5Lexists uninitialized_group_id groupname H5P_DEFAULT,
      Call.H5Gcreate file_id groupname H5P_DEFAULT H5P_DEFAULT H5P_DEFAULT],
      .returned, some group_id⟩

/-- The n-dimensional routines a wrapper can forward to. -/
inductive NdRoutine
  /-- `write_dataset_nd(name, rank, dims, T *data, memtype_id, ...)`, lines 374-383 -/
  | write_dataset_nd_typed
  /-- `write_dataset_nd(name, rank, dims, T *data, count, start, ...)`, lines 505-580 -/
  | write_dataset_nd_typed_count_start
  /-- `write_to_dataset_nd(name, rank, dims, T *data, count, start, ...)`, lines 320-332 -/
  | write_to_dataset_nd_typed
  /-- `write_dataset_nd(name, rank, dims, void *data, memtype_id, ...)`, declared at
  lines 461-464 -/
  | write_dataset_nd_void
  /-- `write_to_dataset_nd(name, rank, dims, void *data, count, start, ...)`, declared
  at lines 346-350 -/
  | write_to_dataset_nd_void
  deriving DecidableEq, Repr

/-- A call of an n-dimensional routine: which routine, and the value each of
its parameters receives, under the parameter names of the callee.  `count` and
`start` are `none` for a routine without these parameters.  A parameter the
caller leaves out receives its default (`true` for the four flags). -/
structure NdCall where
  routine : NdRoutine
  name : String
  rank : Int
  dims : List hsize_t
  data : Ptr
  count : Option (List hsize_t)
  start : Option (List hsize_t)
  memtype_id : hid_t
  filetype_id : hid_t
  flag_parallel : Bool
  flag_first_dim_parallel : Bool
  flag_hyperslab : Bool
  flag_collective : Bool
  deriving DecidableEq, Repr

/-- The typed overload `write_dataset_nd(name, rank, dims, T *data, memtype_id,
filetype_id, flag_parallel, flag_first_dim_parallel, flag_hyperslab,
flag_collective)` (lines 374-383): the call it makes of the untyped routine.
`memtype_id` is assigned `hdf5_type(T{})` before the call. -/
def write_dataset_nd_typed (t : Hdf5Types) (T : CType) (name : String) (rank : Int)
    (dims : List hsize_t) (data : Ptr) (memtype_id filetype_id : hid_t)
    (flag_parallel flag_first_dim_parallel flag_hyperslab flag_collective : Bool) : NdCall :=
  let memtype_id := hdf5_type t T
  { routine := .write_dataset_nd_void
    name := name, rank := rank, dims := dims, data := data, count := none, start := none
    memtype_id := memtype_id, filetype_id := filetype_id
    flag_parallel := flag_parallel, flag_first_dim_parallel := flag_first_dim_parallel
    flag_hyperslab := flag_hyperslab, flag_collective := flag_collective }

/-- The typed overload `write_to_dataset_nd(name, rank, dims, T *data, count,
start, memtype_id, filetype_id, flag_parallel, flag_first_dim_parallel,
flag_hyperslab, flag_collective)` (lines 320-332): the call it makes of the
untyped routine.  `memtype_id` is assigned `hdf5_type(T{})` before the call. -/
def write_to_dataset_nd_typed (t : Hdf5Types) (T : CType) (name : String) (rank : Int)
    (dims : List hsize_t) (data : Ptr) (count start : List hsize_t)
    (memtype_id filetype_id : hid_t)
    (flag_parallel flag_first_dim_parallel flag_hyperslab flag_collective : Bool) : NdCall :=
  let memtype_id := hdf5_type t T
  { routine := .write_to_dataset_nd_void
    name := name, rank := rank, dims := dims, data := data
    count := some count, start := some start
    memtype_id := memtype_id, filetype_id := filetype_id
    flag_parallel := flag_parallel, flag_first_dim_parallel := flag_first_dim_parallel
    flag_hyperslab := flag_hyperslab, flag_collective := flag_collective }

/-- The 1-D wrapper `write_dataset(name, len, T *data, memtype_id, filetype_id,
flag_parallel, flag_hyperslab, flag_collective)` (lines 363-371): the call it
makes.  The nine arguments select the typed overload of `write_dataset_nd` (the
`T *` parameter is an exact match) and bind to its first nine parameters in
order; the tenth takes its default. -/
def write_dataset (t : Hdf5Types) (T : CType) (name : String) (len : hsize_t) (data : Ptr)
    (memtype_id filetype_id : hid_t) (flag_parallel flag_hyperslab flag_collective : Bool) :
    NdCall :=
  let rank : Int := 1
  let dims : List hsize_t := [len]
  let memtype_id := if memtype_id = -1 then hdf5_type t T else memtype_id
  { routine := .write_dataset_nd_typed
    name := name, rank := rank, dims := dims, data := data, count := none, start := none
    memtype_id := memtype_id, filetype_id := filetype_id
    flag_parallel := flag_parallel, flag_first_dim_parallel := flag_hyperslab
    flag_hyperslab := flag_collective, flag_collective := true }

/-- The 1-D wrapper `write_dataset(name, len, T *data, count, start, memtype_id,
filetype_id, flag_parallel, flag_hyperslab, flag_collective)` (lines 478-489):
the call it makes.  The eleven arguments select the typed driver and bind to
its first eleven parameters in order; the twelfth takes its default. -/
def write_dataset_count_start (t : Hdf5Types) (T : CType) (name : String) (len : hsize_t)
    (data : Ptr) (count start : List hsize_t) (memtype_id filetype_id : hid_t)
    (flag_parallel flag_hyperslab flag_collective : Bool) : NdCall :=
  let rank : Int := 1
  let dims : List hsize_t := [len]
  let memtype_id := if memtype_id = -1 then hdf5_type t T else memtype_id
  { routine := .write_dataset_nd_typed_count_start
    name := name, rank := rank, dims := dims, data := data
    count := some count, start := some start
    memtype_id := memtype_id, filetype_id := filetype_id
    flag_parallel := flag_parallel, flag_first_dim_parallel := flag_hyperslab
    flag_hyperslab := flag_collective, flag_collective := true }

/-- The 1-D wrapper `write_to_dataset(name, len, T *data, count, start,
memtype_id, filetype_id, flag_parallel, flag_hyperslab, flag_collective)`
(lines 306-317): the call it makes.  The eleven arguments select the typed
overload of `write_to_dataset_nd` and bind to its first eleven parameters in
order; the twelfth takes its default. -/
def write_to_dataset (t : Hdf5Types) (T : CType) (name : String) (len : hsize_t)
    (data : Ptr) (count start : List hsize_t) (memtype_id filetype_id : hid_t)
    (flag_parallel flag_hyperslab flag_collective : Bool) : NdCall :=
  let rank : Int := 1
  let dims : List hsize_t := [len]
  let memtype_id := if memtype_id = -1 then hdf5_type t T else memtype_id
  { routine := .write_to_dataset_nd_typed
    name := name, rank := rank, dims := dims, data := data
    count := some count, start := some start
    memtype_id := memtype_id, filetype_id := filetype_id
    flag_parallel := flag_parallel, flag_first_dim_parallel := flag_hyperslab
    flag_hyperslab := flag_collective, flag_collective := true }

/-- The call that reaches the untyped routine when the 1-D wrapper
`write_dataset` (lines 363-371) is called: the wrapper calls the typed overload
(lines 374-383), which calls the untyped routine. -/
def write_dataset_reaches (t : Hdf5Types) (T : CType) (name : String) (len : hsize_t)
    (data : Ptr) (memtype_id filetype_id : hid_t)
    (flag_parallel flag_hyperslab flag_collective : Bool) : NdCall :=
  let c := write_dataset t T name len data memtype_id filetype_id flag_parallel flag_hyperslab
    flag_collective
  write_dataset_nd_typed t T c.name c.rank c.dims c.data c.memtype_id c.filetype_id
    c.flag_parallel c.flag_first_dim_parallel c.flag_hyperslab c.flag_collective

/-- What the claim on the 1-D wrappers says the n-dimensional routine receives:
rank 1, `dims = [len]`, the resolved memory type, each flag under its own name
and `flag_first_dim_parallel` at its default. -/
def nd_call_unchanged_flags (routine : NdRoutine) (t : Hdf5Types) (T : CType) (name : String)
    (len : hsize_t) (data : Ptr) (count start : Option (List hsize_t))
    (memtype_id filetype_id : hid_t) (flag_parallel flag_hyperslab flag_collective : Bool) :
    NdCall :=
  { routine := routine
    name := name, rank := 1, dims := [len], data := data, count := count, start := start
    memtype_id := if memtype_id = -1 then hdf5_type t T else memtype_id
    filetype_id := filetype_id
    flag_parallel := flag_parallel, flag_first_dim_parallel := true
    flag_hyperslab := flag_hyperslab, flag_collective := flag_collective }

/-- A library for the worked example of `create_group`: the open file is handle
1 and holds no link; a lookup under any other handle fails. -/
def sampleGroupLibrary : GroupLibrary :=
  { H5Lexists := fun loc _ => if loc = 1 then 0 else -1
    H5Gcreate := fun _ _ => 50 }

/-- The calls of the driver up to and including `H5Dcreate` (lines 515-553), as
a function of the driver's arguments: used to state what a run looks like. -/
def create_calls (b : Build) (t : Hdf5Types) (r : Hdf5Returns) (file_id : hid_t) (T : CType)
    (name : String) (rank : Int) (dims : List hsize_t) (memtype_id filetype_id : hid_t)
    (flag_parallel : Bool) : List Call :=
  [Call.H5Screate_simple rank dims]
    ++ (if b.USEHDFCOMPRESSION then
          [Call._set_compression rank
            ((_set_chunks HDFOUTPUTCHUNKSIZE rank dims none flag_parallel).getD
              (List.replicate rank.toNat 0))]
        else [])
    ++ [Call.H5Dcreate file_id name
          (if filetype_id < 0 then (if memtype_id = -1 then hdf5_type t T else memtype_id)
            else filetype_id)
          r.H5Screate_simple H5P_DEFAULT
          (if b.USEHDFCOMPRESSION then r._set_compression else H5P_DEFAULT) H5P_DEFAULT]

/-- The region the claim about empty regions speaks of: the caller's `count`
when an explicit hyperslab is supplied, otherwise the full extent `dims`. -/
def region_to_write (dims count start : List hsize_t) : List hsize_t :=
  if !count.isEmpty && !start.isEmpty then count else dims

/-- A region `(start, count)` lies within the extent `dims`: the three have the
same rank and `start[i] + count[i] <= dims[i]` on every axis. -/
def region_within (dims start count : List hsize_t) : Prop :=
  start.length = dims.length ∧ count.length = dims.length ∧
    ∀ i, i < dims.length → start.getD i 0 + count.getD i 0 ≤ dims.getD i 0

instance (dims start count : List hsize_t) : Decidable (region_within dims start count) := by
  unfold region_within
  infer_instance

/-- Every hyperslab selection among `calls` lies within `dims`. -/
def selections_within (dims : List hsize_t) (calls : List Call) : Prop :=
  ∀ c ∈ calls,
    match c with
    | .H5Sselect_hyperslab _ _ start _ count _ => region_within dims start count
    | _ => True

/-- The indices a rank-1 hyperslab with `NULL` stride and block covers: `count`
consecutive elements from `start` (the library's reading of the two arrays). -/
def hyperslab_indices (start count : hsize_t) : List Nat :=
  List.range' start count

/-- Type identifiers used in the worked examples. -/
def sampleTypes : Hdf5Types :=
  ⟨101, 102, 103, 104, 105, 106, 107, 108, 109, 110, 111⟩

/-- Library answers used in the worked examples: every call succeeds. -/
def sampleAttrReturns : AttrReturns :=
  ⟨20, 21, 22, 0, 23, 0⟩

/-- A library for the worked examples: every path resolves to the chain
`[30, 31]`, a group and an attribute handle, and handle 31 denotes `a`. -/
def sampleLibrary (a : Option Attribute) : AttrLibrary :=
  { get_attribute := fun _ => [30, 31]
    attr_of := fun h => if h = 31 then a else none
    H5Aget_space := fun _ => 40
    H5Iget_type := fun h =>
      if h = 30 then .H5I_GROUP else if h = 31 then .H5I_ATTR
      else if h = 40 then .H5I_DATASPACE else .H5I_BADID }

end H5OutputFile

/-! ## Theorems -/

namespace H5OutputFile

/-- A negative rank: the vector constructor throws before any call is issued. -/
theorem write_dataset_nd_negative_rank (b : Build) (t : Hdf5Types)
    (r : Hdf5Returns) (file_id : hid_t) (T : CType) (name : String) (rank : Int)
    (dims : List hsize_t) (data : Ptr) (count start : List hsize_t)
    (memtype_id filetype_id : hid_t)
    (flag_parallel flag_first_dim_parallel flag_hyperslab flag_collective : Bool)
    (hrank : rank < 0) :
    write_dataset_nd b t r file_id T name rank dims data count start memtype_id
        filetype_id flag_parallel flag_first_dim_parallel flag_hyperslab flag_collective
      = ⟨[], .threw⟩ := by
  simp only [write_dataset_nd, hrank, if_true]

/-- Failed dataset creation: the run is the creation calls followed by the
fatal sink. -/
theorem write_dataset_nd_create_failed (b : Build) (t : Hdf5Types)
    (r : Hdf5Returns) (file_id : hid_t) (T : CType) (name : String) (rank : Int)
    (dims : List hsize_t) (data : Ptr) (count start : List hsize_t)
    (memtype_id filetype_id : hid_t)
    (flag_parallel flag_first_dim_parallel flag_hyperslab flag_collective : Bool)
    (hrank : 0 ≤ rank) (hcreate : r.H5Dcreate < 0) :
    write_dataset_nd b t r file_id T name rank dims data count start memtype_id
        filetype_id flag_parallel flag_first_dim_parallel flag_hyperslab flag_collective
      = ⟨create_calls b t r file_id T name rank dims memtype_id filetype_id flag_parallel
          ++ [Call.io_error ("Failed to create dataset: " ++ name)], .aborted⟩ := by
  have h1 : ¬ rank < 0 := not_lt.mpr hrank
  simp only [write_dataset_nd, create_calls, h1, hcreate, if_false, if_true]

/-- An empty extent array: the read of `dims[0]` is out of bounds. -/
theorem write_dataset_nd_empty_dims (b : Build) (t : Hdf5Types)
    (r : Hdf5Returns) (file_id : hid_t) (T : CType) (name : String) (rank : Int)
    (data : Ptr) (count start : List hsize_t)
    (memtype_id filetype_id : hid_t)
    (flag_parallel flag_first_dim_parallel flag_hyperslab flag_collective : Bool)
    (hrank : 0 ≤ rank) (hcreate : 0 ≤ r.H5Dcreate) :
    write_dataset_nd b t r file_id T name rank [] data count start memtype_id
        filetype_id flag_parallel flag_first_dim_parallel flag_hyperslab flag_collective
      = ⟨create_calls b t r file_id T name rank [] memtype_id filetype_id flag_parallel
          ++ [Call.H5Pclose (if b.USEHDFCOMPRESSION then r._set_compression else H5P_DEFAULT)],
          .undefined⟩ := by
  have h1 : ¬ rank < 0 := not_lt.mpr hrank
  have h2 : ¬ r.H5Dcreate < 0 := not_lt.mpr hcreate
  simp only [write_dataset_nd, create_calls, h1, h2, if_false]

/-- The calls of a run that gets past dataset creation, in program order. -/
theorem write_dataset_nd_calls (b : Build) (t : Hdf5Types)
    (r : Hdf5Returns) (file_id : hid_t) (T : CType) (name : String) (rank : Int)
    (d0 : hsize_t) (rest : List hsize_t) (data : Ptr) (count start : List hsize_t)
    (memtype_id filetype_id : hid_t)
    (flag_parallel flag_first_dim_parallel flag_hyperslab flag_collective : Bool)
    (hrank : 0 ≤ rank) (hcreate : 0 ≤ r.H5Dcreate) :
    (write_dataset_nd b t r file_id T name rank (d0 :: rest) data count start memtype_id
        filetype_id flag_parallel flag_first_dim_parallel flag_hyperslab
        flag_collective).calls
      = create_calls b t r file_id T name rank (d0 :: rest) memtype_id filetype_id flag_parallel
        ++ [Call.H5Pclose (if b.USEHDFCOMPRESSION then r._set_compression else H5P_DEFAULT)]
        ++ (if !count.isEmpty && !start.isEmpty then
              [Call.H5Sselect_hyperslab r.H5Screate_simple .H5S_SELECT_SET start none count none]
            else [])
        ++ (if 0 < d0 then
              [Call.H5Dwrite r.H5Dcreate (if memtype_id = -1 then hdf5_type t T else memtype_id)
                r.H5Screate_simple r.H5Screate_simple H5P_DEFAULT data]
            else [])
        ++ (if 0 < d0 ∧ r.H5Dwrite < 0 then
              [Call.io_error ("Failed to write dataset: " ++ name)]
            else [Call.H5Pclose H5P_DEFAULT, Call.H5Sclose r.H5Screate_simple,
                  Call.H5Dclose r.H5Dcreate]) := by
  have h1 : ¬ rank < 0 := not_lt.mpr hrank
  have h2 : ¬ r.H5Dcreate < 0 := not_lt.mpr hcreate
  simp only [write_dataset_nd, create_calls, h1, h2, if_false]
  by_cases hd : 0 < d0 <;> by_cases hw : r.H5Dwrite < 0 <;>
    simp [hd, hw]

/-- How a run that gets past dataset creation ends. -/
theorem write_dataset_nd_outcome (b : Build) (t : Hdf5Types)
    (r : Hdf5Returns) (file_id : hid_t) (T : CType) (name : String) (rank : Int)
    (d0 : hsize_t) (rest : List hsize_t) (data : Ptr) (count start : List hsize_t)
    (memtype_id filetype_id : hid_t)
    (flag_parallel flag_first_dim_parallel flag_hyperslab flag_collective : Bool)
    (hrank : 0 ≤ rank) (hcreate : 0 ≤ r.H5Dcreate) :
    (write_dataset_nd b t r file_id T name rank (d0 :: rest) data count start memtype_id
        filetype_id flag_parallel flag_first_dim_parallel flag_hyperslab
        flag_collective).outcome
      = if 0 < d0 ∧ r.H5Dwrite < 0 then .aborted else .returned := by
  have h1 : ¬ rank < 0 := not_lt.mpr hrank
  have h2 : ¬ r.H5Dcreate < 0 := not_lt.mpr hcreate
  simp only [write_dataset_nd, h1, h2, if_false]
  by_cases hd : 0 < d0 <;> by_cases hw : r.H5Dwrite < 0 <;>
    simp [hd, hw]

/-- None of the creation calls is a write, a selection or a close. -/
theorem create_calls_filters (b : Build) (t : Hdf5Types) (r : Hdf5Returns) (file_id : hid_t)
    (T : CType) (name : String) (rank : Int) (dims : List hsize_t)
    (memtype_id filetype_id : hid_t) (flag_parallel : Bool) :
    (create_calls b t r file_id T name rank dims memtype_id filetype_id
        flag_parallel).filter Call.isH5Dwrite = []
    ∧ (create_calls b t r file_id T name rank dims memtype_id filetype_id
        flag_parallel).filter Call.isH5Sselect_hyperslab = []
    ∧ (create_calls b t r file_id T name rank dims memtype_id filetype_id
        flag_parallel).filter Call.isH5Sclose = []
    ∧ (create_calls b t r file_id T name rank dims memtype_id filetype_id
        flag_parallel).filter Call.isH5Dclose = []
    ∧ (create_calls b t r file_id T name rank dims memtype_id filetype_id
        flag_parallel).filter Call.isio_error = [] := by
  by_cases hc : b.USEHDFCOMPRESSION = true <;>
    simp [create_calls, hc, List.filter_cons, Call.isH5Dwrite, Call.isH5Sselect_hyperslab,
      Call.isH5Sclose, Call.isH5Dclose, Call.isio_error]

/-- Whatever the arguments and the library's answers, a run issues no hyperslab
selection or exactly the one made of the caller's `start` and `count`. -/
theorem write_dataset_nd_selections (b : Build) (t : Hdf5Types)
    (r : Hdf5Returns) (file_id : hid_t) (T : CType) (name : String) (rank : Int)
    (dims : List hsize_t) (data : Ptr) (count start : List hsize_t)
    (memtype_id filetype_id : hid_t)
    (flag_parallel flag_first_dim_parallel flag_hyperslab flag_collective : Bool) :
    (write_dataset_nd b t r file_id T name rank dims data count start memtype_id
        filetype_id flag_parallel flag_first_dim_parallel flag_hyperslab
        flag_collective).calls.filter Call.isH5Sselect_hyperslab = []
    ∨ (write_dataset_nd b t r file_id T name rank dims data count start memtype_id
        filetype_id flag_parallel flag_first_dim_parallel flag_hyperslab
        flag_collective).calls.filter Call.isH5Sselect_hyperslab
      = [Call.H5Sselect_hyperslab r.H5Screate_simple .H5S_SELECT_SET start none count none] := by
  obtain ⟨-, hf2, -, -, -⟩ := create_calls_filters b t r file_id T name rank dims
    memtype_id filetype_id flag_parallel
  by_cases hrank : rank < 0
  · rw [write_dataset_nd_negative_rank b t r file_id T name rank dims data count start
      memtype_id filetype_id flag_parallel flag_first_dim_parallel flag_hyperslab
      flag_collective hrank]
    exact Or.inl rfl
  · have h0 : 0 ≤ rank := not_lt.mp hrank
    by_cases hcreate : r.H5Dcreate < 0
    · rw [write_dataset_nd_create_failed b t r file_id T name rank dims data count start
        memtype_id filetype_id flag_parallel flag_first_dim_parallel flag_hyperslab
        flag_collective h0 hcreate]
      left
      simp [List.filter_append, hf2, Call.isH5Sselect_hyperslab]
    · have hc : 0 ≤ r.H5Dcreate := not_lt.mp hcreate
      cases dims with
      | nil =>
        rw [write_dataset_nd_empty_dims b t r file_id T name rank data count start
          memtype_id filetype_id flag_parallel flag_first_dim_parallel flag_hyperslab
          flag_collective h0 hc]
        left
        have hf2' := (create_calls_filters b t r file_id T name rank [] memtype_id filetype_id
          flag_parallel).2.1
        simp [List.filter_append, hf2', Call.isH5Sselect_hyperslab]
      | cons d0 rest =>
        rw [write_dataset_nd_calls b t r file_id T name rank d0 rest data count start
          memtype_id filetype_id flag_parallel flag_first_dim_parallel flag_hyperslab
          flag_collective h0 hc]
        simp only [List.filter_append, hf2]
        by_cases hd : 0 < d0 <;> by_cases hw : r.H5Dwrite < 0 <;>
          by_cases hs : (!count.isEmpty && !start.isEmpty) = true <;>
          simp [hd, hw, hs, Call.isH5Sselect_hyperslab, List.filter_cons]

/-- C1: in the typed driver, for every rank at least 1, every extent array with a
leading entry and every run in which dataset creation succeeds, `H5Dwrite` is
issued exactly once when `dims[0] > 0` and not at all when `dims[0] = 0`. -/
theorem write_dataset_nd_writes_iff_leading_extent_pos (b : Build) (t : Hdf5Types)
    (r : Hdf5Returns) (file_id : hid_t) (T : CType) (name : String) (rank : Int)
    (d0 : hsize_t) (rest : List hsize_t) (data : Ptr) (count start : List hsize_t)
    (memtype_id filetype_id : hid_t)
    (flag_parallel flag_first_dim_parallel flag_hyperslab flag_collective : Bool)
    (hrank : 1 ≤ rank) (hcreate : 0 ≤ r.H5Dcreate) :
    (write_dataset_nd b t r file_id T name rank (d0 :: rest) data count start memtype_id
        filetype_id flag_parallel flag_first_dim_parallel flag_hyperslab
        flag_collective).calls.countP Call.isH5Dwrite
      = if 0 < d0 then 1 else 0 := by
  have h0 : 0 ≤ rank := le_trans (by decide) hrank
  rw [write_dataset_nd_calls b t r file_id T name rank d0 rest data count start memtype_id
    filetype_id flag_parallel flag_first_dim_parallel flag_hyperslab flag_collective h0 hcreate]
  have hf := (create_calls_filters b t r file_id T name rank (d0 :: rest) memtype_id filetype_id
    flag_parallel).1
  simp only [List.countP_eq_length_filter, List.filter_append, hf]
  by_cases hd : 0 < d0 <;> by_cases hw : r.H5Dwrite < 0 <;>
    by_cases hs : (!count.isEmpty && !start.isEmpty) = true <;>
    simp [hd, hw, hs, Call.isH5Dwrite, List.filter_cons]

/-- Witness for C1: a rank-1 dataset of extent 10 whose creation succeeds is
written exactly once. -/
theorem write_dataset_nd_writes_iff_leading_extent_pos_witness :
    ((1 : Int) ≤ 1 ∧ (0 : Int) ≤ 6) ∧
    (write_dataset_nd ⟨false⟩ sampleTypes ⟨5, 0, 6, 0, 0⟩ 1 .double "/d" 1 [10] 0 [] [] (-1) (-1)
        true true true true).calls.countP Call.isH5Dwrite = 1 :=
  ⟨by decide,
    write_dataset_nd_writes_iff_leading_extent_pos ⟨false⟩ sampleTypes ⟨5, 0, 6, 0, 0⟩ 1 .double
      "/d" 1 10 [] 0 [] [] (-1) (-1) true true true true (by decide) (by decide)⟩

/-- C2: in the typed driver, on every run that gets past dataset creation, the
hyperslab selections issued are: exactly one, on the file dataspace, with the
set operator, the caller's `start` and `count` and `NULL` stride and block, when
both `start` and `count` are non-empty; none otherwise.  The file dataspace is
the one created from `rank` and `dims`, and every write uses that same handle
as memory and as file dataspace. -/
theorem write_dataset_nd_selects_iff_start_and_count (b : Build) (t : Hdf5Types)
    (r : Hdf5Returns) (file_id : hid_t) (T : CType) (name : String) (rank : Int)
    (d0 : hsize_t) (rest : List hsize_t) (data : Ptr) (count start : List hsize_t)
    (memtype_id filetype_id : hid_t)
    (flag_parallel flag_first_dim_parallel flag_hyperslab flag_collective : Bool)
    (hrank : 0 ≤ rank) (hcreate : 0 ≤ r.H5Dcreate) :
    ((write_dataset_nd b t r file_id T name rank (d0 :: rest) data count start memtype_id
        filetype_id flag_parallel flag_first_dim_parallel flag_hyperslab
        flag_collective).calls.filter Call.isH5Sselect_hyperslab
      = if count ≠ [] ∧ start ≠ [] then
          [Call.H5Sselect_hyperslab r.H5Screate_simple .H5S_SELECT_SET start none count none]
        else [])
    ∧ (write_dataset_nd b t r file_id T name rank (d0 :: rest) data count start memtype_id
        filetype_id flag_parallel flag_first_dim_parallel flag_hyperslab
        flag_collective).calls.head? = some (Call.H5Screate_simple rank (d0 :: rest))
    ∧ (write_dataset_nd b t r file_id T name rank (d0 :: rest) data count start memtype_id
        filetype_id flag_parallel flag_first_dim_parallel flag_hyperslab
        flag_collective).calls.filter Call.isH5Dwrite
      = if 0 < d0 then
          [Call.H5Dwrite r.H5Dcreate (if memtype_id = -1 then hdf5_type t T else memtype_id)
            r.H5Screate_simple r.H5Screate_simple H5P_DEFAULT data]
        else [] := by
  rw [write_dataset_nd_calls b t r file_id T name rank d0 rest data count start memtype_id
    filetype_id flag_parallel flag_first_dim_parallel flag_hyperslab flag_collective hrank
    hcreate]
  obtain ⟨hf1, hf2, -, -, -⟩ := create_calls_filters b t r file_id T name rank (d0 :: rest)
    memtype_id filetype_id flag_parallel
  refine ⟨?_, ?_, ?_⟩
  · simp only [List.filter_append, hf2]
    by_cases hd : 0 < d0 <;> by_cases hw : r.H5Dwrite < 0 <;>
      by_cases hcn : count = [] <;> by_cases hst : start = [] <;>
      simp [hd, hw, hcn, hst, Call.isH5Sselect_hyperslab, List.filter_cons]
  · simp [create_calls]
  · simp only [List.filter_append, hf1]
    by_cases hd : 0 < d0 <;> by_cases hw : r.H5Dwrite < 0 <;>
      by_cases hs : (!count.isEmpty && !start.isEmpty) = true <;>
      simp [hd, hw, hs, Call.isH5Dwrite, List.filter_cons]

/-- Witness for C2: extent `[10]`, `start = [2]`, `count = [3]`: one selection
is issued, and it covers the indices 2, 3, 4. -/
theorem write_dataset_nd_selects_iff_start_and_count_witness :
    ((0 : Int) ≤ 1 ∧ (0 : Int) ≤ 6) ∧
    (write_dataset_nd ⟨false⟩ sampleTypes ⟨5, 0, 6, 0, 0⟩ 1 .double "/d" 1 [10] 0 [3] [2] (-1) (-1)
        true true true true).calls.filter Call.isH5Sselect_hyperslab
      = [Call.H5Sselect_hyperslab 5 .H5S_SELECT_SET [2] none [3] none]
    ∧ hyperslab_indices 2 3 = [2, 3, 4] :=
  ⟨by decide,
    (write_dataset_nd_selects_iff_start_and_count ⟨false⟩ sampleTypes ⟨5, 0, 6, 0, 0⟩ 1 .double
      "/d" 1 10 [] 0 [3] [2] (-1) (-1) true true true true (by decide) (by decide)).1,
    by decide⟩

/-- C3, as stated, fails: a rank-2 extent `[3, 0]` written in full, and an
extent `[10]` with the explicit hyperslab `start = [2]`, `count = [0]`, both
have a zero axis in the region to be written, and in both runs `H5Dwrite` is
issued. -/
theorem write_dataset_nd_writes_region_with_zero_axis :
    (0 ∈ region_to_write [3, 0] [] []
      ∧ (write_dataset_nd ⟨false⟩ sampleTypes ⟨5, 0, 6, 0, 0⟩ 1 .double "/d" 2 [3, 0] 0 [] []
          (-1) (-1) true true true true).calls.countP Call.isH5Dwrite = 1)
    ∧ (0 ∈ region_to_write [10] [0] [2]
      ∧ (write_dataset_nd ⟨false⟩ sampleTypes ⟨5, 0, 6, 0, 0⟩ 1 .double "/d" 1 [10] 0 [0] [2]
          (-1) (-1) true true true true).calls.countP Call.isH5Dwrite = 1) := by
  decide

/-- C3 (amended): whenever the leading-axis extent `dims[0]` is zero, the typed
driver issues no `H5Dwrite`, whatever the rank, the other axes, the caller's
`start` and `count` and the library's answers. -/
theorem write_dataset_nd_no_write_when_leading_extent_zero (b : Build) (t : Hdf5Types)
    (r : Hdf5Returns) (file_id : hid_t) (T : CType) (name : String) (rank : Int)
    (rest : List hsize_t) (data : Ptr) (count start : List hsize_t)
    (memtype_id filetype_id : hid_t)
    (flag_parallel flag_first_dim_parallel flag_hyperslab flag_collective : Bool) :
    (write_dataset_nd b t r file_id T name rank (0 :: rest) data count start memtype_id
        filetype_id flag_parallel flag_first_dim_parallel flag_hyperslab
        flag_collective).calls.countP Call.isH5Dwrite = 0 := by
  have hf := (create_calls_filters b t r file_id T name rank (0 :: rest) memtype_id filetype_id
    flag_parallel).1
  by_cases hrank : rank < 0
  · rw [write_dataset_nd_negative_rank b t r file_id T name rank (0 :: rest) data count start
      memtype_id filetype_id flag_parallel flag_first_dim_parallel flag_hyperslab
      flag_collective hrank]
    rfl
  · have h0 : 0 ≤ rank := not_lt.mp hrank
    by_cases hcreate : r.H5Dcreate < 0
    · rw [write_dataset_nd_create_failed b t r file_id T name rank (0 :: rest) data count start
        memtype_id filetype_id flag_parallel flag_first_dim_parallel flag_hyperslab
        flag_collective h0 hcreate]
      simp [List.countP_eq_length_filter, List.filter_append, hf, Call.isH5Dwrite]
    · have hc : 0 ≤ r.H5Dcreate := not_lt.mp hcreate
      rw [write_dataset_nd_calls b t r file_id T name rank 0 rest data count start
        memtype_id filetype_id flag_parallel flag_first_dim_parallel flag_hyperslab
        flag_collective h0 hc]
      simp only [List.countP_eq_length_filter, List.filter_append, hf]
      by_cases hs : (!count.isEmpty && !start.isEmpty) = true <;>
        simp [hs, Call.isH5Dwrite, List.filter_cons]

/-- C4, as stated, fails: on extent `[10]` the caller's `start = [8]`,
`count = [5]` reaches the selection call although `8 + 5 > 10`. -/
theorem write_dataset_nd_selection_exceeds_extent :
    ¬ selections_within [10]
        (write_dataset_nd ⟨false⟩ sampleTypes ⟨5, 0, 6, 0, 0⟩ 1 .double "/d" 1 [10] 0 [5] [8]
          (-1) (-1) true true true true).calls := by
  intro h
  have h' := h (Call.H5Sselect_hyperslab 5 .H5S_SELECT_SET [8] none [5] none) (by decide)
  revert h'
  decide

/-- C4 (amended): every hyperslab selection the typed driver issues is the
caller's `start` and `count`, unchanged and unchecked; so the selections lie
within `dims` (same rank, `start[i] + count[i] <= dims[i]`) whenever the
caller's `start` and `count` do. -/
theorem write_dataset_nd_selection_is_callers (b : Build) (t : Hdf5Types)
    (r : Hdf5Returns) (file_id : hid_t) (T : CType) (name : String) (rank : Int)
    (dims : List hsize_t) (data : Ptr) (count start : List hsize_t)
    (memtype_id filetype_id : hid_t)
    (flag_parallel flag_first_dim_parallel flag_hyperslab flag_collective : Bool) :
    (∀ c ∈ (write_dataset_nd b t r file_id T name rank dims data count start memtype_id
        filetype_id flag_parallel flag_first_dim_parallel flag_hyperslab
        flag_collective).calls, c.isH5Sselect_hyperslab = true →
        c = Call.H5Sselect_hyperslab r.H5Screate_simple .H5S_SELECT_SET start none count none)
    ∧ (region_within dims start count →
        selections_within dims
          (write_dataset_nd b t r file_id T name rank dims data count start memtype_id
            filetype_id flag_parallel flag_first_dim_parallel flag_hyperslab
            flag_collective).calls) := by
  have key : ∀ c ∈ (write_dataset_nd b t r file_id T name rank dims data count start memtype_id
        filetype_id flag_parallel flag_first_dim_parallel flag_hyperslab
        flag_collective).calls, c.isH5Sselect_hyperslab = true →
        c = Call.H5Sselect_hyperslab r.H5Screate_simple .H5S_SELECT_SET start none count none := by
    intro c hc hsel
    have hmem : c ∈ (write_dataset_nd b t r file_id T name rank dims data count start memtype_id
        filetype_id flag_parallel flag_first_dim_parallel flag_hyperslab
        flag_collective).calls.filter Call.isH5Sselect_hyperslab :=
      List.mem_filter.mpr ⟨hc, hsel⟩
    rcases write_dataset_nd_selections b t r file_id T name rank dims data count start
      memtype_id filetype_id flag_parallel flag_first_dim_parallel flag_hyperslab
      flag_collective with h | h
    · rw [h] at hmem
      exact absurd hmem (List.not_mem_nil c)
    · rw [h] at hmem
      exact List.mem_singleton.mp hmem
  refine ⟨key, ?_⟩
  intro hin c hc
  cases c with
  | H5Sselect_hyperslab sp op st sd cn bl =>
    have := key _ hc rfl
    injection this with _ _ h3 _ h5 _
    subst h3 h5
    exact hin
  | _ => trivial

/-- C5, evaluated where it fails.  First run: extent `[10]`, `start = [2]`,
`count = [3]`, and `H5Sselect_hyperslab` answers `-1`; the driver goes on to
`H5Dwrite` and returns without calling `io_error`.  Second run: extent `[10]`
and `H5Screate_simple` answers `-1`; the driver hands the failed handle to
`H5Dcreate` and `H5Dwrite` and returns without calling `io_error`. -/
theorem write_dataset_nd_ignores_failed_selection_and_dataspace :
    write_dataset_nd ⟨false⟩ sampleTypes ⟨5, 0, 6, -1, 0⟩ 1 .double "/d" 1 [10] 0 [3] [2]
        (-1) (-1) true true true true
      = ⟨[Call.H5Screate_simple 1 [10],
          Call.H5Dcreate 1 "/d" 102 5 0 0 0,
          Call.H5Pclose 0,
          Call.H5Sselect_hyperslab 5 .H5S_SELECT_SET [2] none [3] none,
          Call.H5Dwrite 6 102 5 5 0 0,
          Call.H5Pclose 0, Call.H5Sclose 5, Call.H5Dclose 6], .returned⟩
    ∧ write_dataset_nd ⟨false⟩ sampleTypes ⟨-1, 0, 6, 0, 0⟩ 1 .double "/d" 1 [10] 0 [] []
        (-1) (-1) true true true true
      = ⟨[Call.H5Screate_simple 1 [10],
          Call.H5Dcreate 1 "/d" 102 (-1) 0 0 0,
          Call.H5Pclose 0,
          Call.H5Dwrite 6 102 (-1) (-1) 0 0,
          Call.H5Pclose 0, Call.H5Sclose (-1), Call.H5Dclose 6], .returned⟩ := by
  decide

/-- C6: on every run of the typed driver in which dataset creation succeeds and
the write, if issued, succeeds, the body returns and its last three calls are
`H5Pclose` of the transfer property list, `H5Sclose` of the file dataspace and
`H5Dclose` of the dataset, in that order.  These are the only dataspace close
and the only dataset close of the run: the memory dataspace is the same handle
as the file dataspace and is not closed a second time. -/
theorem write_dataset_nd_release_sequence (b : Build) (t : Hdf5Types)
    (r : Hdf5Returns) (file_id : hid_t) (T : CType) (name : String) (rank : Int)
    (d0 : hsize_t) (rest : List hsize_t) (data : Ptr) (count start : List hsize_t)
    (memtype_id filetype_id : hid_t)
    (flag_parallel flag_first_dim_parallel flag_hyperslab flag_collective : Bool)
    (hrank : 0 ≤ rank) (hcreate : 0 ≤ r.H5Dcreate) (hwrite : 0 < d0 → 0 ≤ r.H5Dwrite) :
    (write_dataset_nd b t r file_id T name rank (d0 :: rest) data count start memtype_id
        filetype_id flag_parallel flag_first_dim_parallel flag_hyperslab
        flag_collective).outcome = .returned
    ∧ [Call.H5Pclose H5P_DEFAULT, Call.H5Sclose r.H5Screate_simple, Call.H5Dclose r.H5Dcreate]
        <:+ (write_dataset_nd b t r file_id T name rank (d0 :: rest) data count start memtype_id
          filetype_id flag_parallel flag_first_dim_parallel flag_hyperslab
          flag_collective).calls
    ∧ (write_dataset_nd b t r file_id T name rank (d0 :: rest) data count start memtype_id
        filetype_id flag_parallel flag_first_dim_parallel flag_hyperslab
        flag_collective).calls.filter Call.isH5Sclose = [Call.H5Sclose r.H5Screate_simple]
    ∧ (write_dataset_nd b t r file_id T name rank (d0 :: rest) data count start memtype_id
        filetype_id flag_parallel flag_first_dim_parallel flag_hyperslab
        flag_collective).calls.filter Call.isH5Dclose = [Call.H5Dclose r.H5Dcreate] := by
  have hok : ¬ (0 < d0 ∧ r.H5Dwrite < 0) := fun h => absurd h.2 (not_lt.mpr (hwrite h.1))
  obtain ⟨-, -, hf3, hf4, -⟩ := create_calls_filters b t r file_id T name rank (d0 :: rest)
    memtype_id filetype_id flag_parallel
  refine ⟨?_, ?_, ?_, ?_⟩
  · rw [write_dataset_nd_outcome b t r file_id T name rank d0 rest data count start memtype_id
      filetype_id flag_parallel flag_first_dim_parallel flag_hyperslab flag_collective hrank
      hcreate, if_neg hok]
  · rw [write_dataset_nd_calls b t r file_id T name rank d0 rest data count start memtype_id
      filetype_id flag_parallel flag_first_dim_parallel flag_hyperslab flag_collective hrank
      hcreate, if_neg hok]
    exact List.suffix_append _ _
  · rw [write_dataset_nd_calls b t r file_id T name rank d0 rest data count start memtype_id
      filetype_id flag_parallel flag_first_dim_parallel flag_hyperslab flag_collective hrank
      hcreate, if_neg hok]
    simp only [List.filter_append, hf3]
    by_cases hd : 0 < d0 <;>
      by_cases hs : (!count.isEmpty && !start.isEmpty) = true <;>
      simp [hd, hs, Call.isH5Sclose, List.filter_cons]
  · rw [write_dataset_nd_calls b t r file_id T name rank d0 rest data count start memtype_id
      filetype_id flag_parallel flag_first_dim_parallel flag_hyperslab flag_collective hrank
      hcreate, if_neg hok]
    simp only [List.filter_append, hf4]
    by_cases hd : 0 < d0 <;>
      by_cases hs : (!count.isEmpty && !start.isEmpty) = true <;>
      simp [hd, hs, Call.isH5Dclose, List.filter_cons]

/-- Witness for C6: extent `[10]`, every library call succeeds; the run ends
with the three release calls. -/
theorem write_dataset_nd_release_sequence_witness :
    ((0 : Int) ≤ 1 ∧ (0 : Int) ≤ 6 ∧ (0 < 10 → (0 : Int) ≤ 0)) ∧
    [Call.H5Pclose 0, Call.H5Sclose 5, Call.H5Dclose 6]
      <:+ (write_dataset_nd ⟨false⟩ sampleTypes ⟨5, 0, 6, 0, 0⟩ 1 .double "/d" 1 [10] 0 [] []
            (-1) (-1) true true true true).calls :=
  ⟨by decide,
    (write_dataset_nd_release_sequence ⟨false⟩ sampleTypes ⟨5, 0, 6, 0, 0⟩ 1 .double "/d" 1 10
      [] 0 [] [] (-1) (-1) true true true true (by decide) (by decide) (by decide)).2.1⟩

/-- C8: whenever `_set_chunks` (default chunk size 8192) plans a chunk shape,
the shape has the rank of the extent it plans on, no chunk exceeds the extent
on its axis, and no axis of that extent is zero; an extent with a zero axis
gets no chunk shape.  Without a distributed total the extent planned on is
`dims` itself, and for extent `[10000]` the chunk shape is `[8192]`. -/
theorem set_chunks_within_extent (rank : Int) (dims : List hsize_t)
    (mpi_hdf_dims_tot : Option (List hsize_t)) (flag_parallel : Bool)
    (chunks : List hsize_t)
    (h : _set_chunks HDFOUTPUTCHUNKSIZE rank dims mpi_hdf_dims_tot flag_parallel = some chunks) :
    chunks.length = (planned_extent rank dims mpi_hdf_dims_tot flag_parallel).length
    ∧ (∀ i, i < chunks.length →
        chunks.getD i 0 ≤ (planned_extent rank dims mpi_hdf_dims_tot flag_parallel).getD i 0)
    ∧ (∀ e ∈ planned_extent rank dims mpi_hdf_dims_tot flag_parallel, e ≠ 0)
    ∧ planned_extent rank dims none flag_parallel = dims.take rank.toNat
    ∧ _set_chunks HDFOUTPUTCHUNKSIZE 1 [10000] none flag_parallel = some [8192] := by
  unfold _set_chunks at h
  simp only at h
  split at h
  · exact absurd h (by simp)
  · rename_i hz
    have hc : chunks = (planned_extent rank dims mpi_hdf_dims_tot flag_parallel).map
        (fun e => min HDFOUTPUTCHUNKSIZE e) := (Option.some.inj h).symm
    refine ⟨by simp [hc], ?_, ?_, ?_, ?_⟩
    · intro i hi
      subst hc
      rw [List.length_map] at hi
      rw [List.getD_eq_getElem _ _ (by simpa using hi), List.getD_eq_getElem _ _ hi,
        List.getElem_map]
      exact min_le_right _ _
    · intro e he h0
      apply hz
      simp only [List.any_eq_true, beq_iff_eq]
      exact ⟨e, he, h0⟩
    · cases flag_parallel <;> simp [planned_extent]
    · cases flag_parallel <;> decide

/-- Witness for C8: extent `[10000]` is chunked as `[8192]`, which is within
the extent. -/
theorem set_chunks_within_extent_witness :
    _set_chunks HDFOUTPUTCHUNKSIZE 1 [10000] none true = some [8192]
    ∧ ∀ i, i < [8192].length →
        [8192].getD i 0 ≤ (planned_extent 1 [10000] none true).getD i 0 :=
  ⟨by decide, (set_chunks_within_extent 1 [10000] none true [8192] (by decide)).2.1⟩

/-- Accumulating from `a` adds the sum of the list to `a`. -/
theorem foldl_add_eq_sum (xs : List hsize_t) (a : hsize_t) :
    xs.foldl (fun acc l => acc + l) a = a + xs.sum := by
  induction xs generalizing a with
  | nil => simp
  | cons x xs ih => simp [List.foldl_cons, ih, Nat.add_assoc]

/-- C9: for every participant count at least 1, local extents `gathered` and
participant rank `r`, the global extent produced by `_set_mpi_dim_and_offset` is
the sum of all local extents and the offset of `r` is the sum of the local
extents of the participants of lower rank; for `[4, 0, 6]` the global extent is
10 and the offsets are `[0, 4, 4]`. -/
theorem set_mpi_dim_and_offset_sums (gathered : List hsize_t) (r : Nat)
    (hN : 1 ≤ gathered.length) (hr : r < gathered.length) :
    (_set_mpi_dim_and_offset gathered r).mpi_hdf_dims_tot = gathered.sum
    ∧ (_set_mpi_dim_and_offset gathered r).dims_offset = (gathered.take r).sum
    ∧ (_set_mpi_dim_and_offset gathered r).mpi_hdf_dims = gathered
    ∧ (_set_mpi_dim_and_offset [4, 0, 6] 0).mpi_hdf_dims_tot = 10
    ∧ (List.range 3).map (fun k => (_set_mpi_dim_and_offset [4, 0, 6] k).dims_offset)
        = [0, 4, 4] := by
  refine ⟨?_, ?_, rfl, by decide, by decide⟩
  · simp [_set_mpi_dim_and_offset, foldl_add_eq_sum]
  · simp [_set_mpi_dim_and_offset, foldl_add_eq_sum]

/-- Witness for C9: three participants with local extents 4, 0, 6; participant 2
starts at offset 4 of a global extent 10. -/
theorem set_mpi_dim_and_offset_sums_witness :
    (1 ≤ [4, 0, 6].length ∧ 2 < [4, 0, 6].length)
    ∧ (_set_mpi_dim_and_offset [4, 0, 6] 2).mpi_hdf_dims_tot = [4, 0, 6].sum
    ∧ (_set_mpi_dim_and_offset [4, 0, 6] 2).dims_offset = ([4, 0, 6].take 2).sum :=
  ⟨by decide,
    (set_mpi_dim_and_offset_sums [4, 0, 6] 2 (by decide) (by decide)).1,
    (set_mpi_dim_and_offset_sums [4, 0, 6] 2 (by decide) (by decide)).2.1⟩

/-- Unfolding of `close_hdf_ids` on a non-empty list. -/
theorem close_hdf_ids_cons (lib : AttrLibrary) (id : hid_t) (ids : List hid_t) :
    close_hdf_ids lib (id :: ids)
      = (match lib.H5Iget_type id with
          | .H5I_GROUP => [Call.H5Gclose id]
          | .H5I_DATASET => [Call.H5Dclose id]
          | .H5I_ATTR => [Call.H5Aclose id]
          | .H5I_DATASPACE => [Call.H5Sclose id]
          | .H5I_BADID => []) ++ close_hdf_ids lib ids := by
  unfold close_hdf_ids
  rw [List.filterMap_cons]
  cases lib.H5Iget_type id <;> rfl

/-- The close calls `close_hdf_ids` issues release exactly the handles it is
given, in the order given, when each of them is open. -/
theorem close_hdf_ids_released (lib : AttrLibrary) (ids : List hid_t)
    (hopen : ∀ h ∈ ids, lib.H5Iget_type h ≠ .H5I_BADID) :
    (close_hdf_ids lib ids).filterMap Call.released = ids := by
  induction ids with
  | nil => rfl
  | cons id ids ih =>
    have hid := hopen id (List.mem_cons_self _ _)
    have ih' := ih (fun h hh => hopen h (List.mem_cons_of_mem _ hh))
    rw [close_hdf_ids_cons, List.filterMap_append, ih']
    cases hk : lib.H5Iget_type id
    · rfl
    · rfl
    · rfl
    · rfl
    · exact absurd hk hid

/-- The calls `close_hdf_ids` issues read no attribute and hand nothing on. -/
theorem close_hdf_ids_only_closes (lib : AttrLibrary) (ids : List hid_t) :
    (close_hdf_ids lib ids).filterMap Call.read_from = []
    ∧ (close_hdf_ids lib ids).filterMap Call.handed_to_close_hdf_ids = [] := by
  induction ids with
  | nil => exact ⟨rfl, rfl⟩
  | cons id ids ih =>
    rw [close_hdf_ids_cons, List.filterMap_append, List.filterMap_append, ih.1, ih.2]
    cases lib.H5Iget_type id <;> exact ⟨rfl, rfl⟩

/-- The calls of a `_do_read_v` that returns. -/
theorem do_read_v_returned (lib : AttrLibrary) (attr type : hid_t)
    (h : (_do_read_v lib attr type).2.1 = .returned) :
    (_do_read_v lib attr type).1
      = [Call.H5Aget_space attr, Call.H5Sget_simple_extent_npoints (lib.H5Aget_space attr),
          Call.H5Aread attr type, Call.H5Sclose (lib.H5Aget_space attr)] := by
  unfold _do_read_v at h ⊢
  simp only at h ⊢
  split
  · rename_i hneg
    simp [hneg] at h
  · rename_i hneg
    simp only [hneg, if_false] at h
    split
    · rename_i xs hxs
      simp only [hxs] at h
      split
      · rfl
      · rename_i hlen
        simp [hlen] at h
    · rfl

/-- Unfolding of `read_attribute_v` on a non-empty chain. -/
theorem read_attribute_v_eq (t : Hdf5Types) (lib : AttrLibrary) (T : CType)
    (name : String) (init : List hid_t) (leaf : hid_t)
    (hchain : lib.get_attribute name = init ++ [leaf]) :
    read_attribute_v t lib T name
      = if (_do_read_v lib leaf (hdf5_type t T)).2.1 = .returned then
          ⟨[Call.get_attribute name] ++ (_do_read_v lib leaf (hdf5_type t T)).1
              ++ [Call.H5Aclose leaf, Call.close_hdf_ids init.reverse]
              ++ close_hdf_ids lib init.reverse, .returned,
            (_do_read_v lib leaf (hdf5_type t T)).2.2⟩
        else
          ⟨[Call.get_attribute name] ++ (_do_read_v lib leaf (hdf5_type t T)).1,
            (_do_read_v lib leaf (hdf5_type t T)).2.1, none⟩ := by
  have hrev : (init ++ [leaf]).reverse = leaf :: init.reverse := by simp
  simp only [read_attribute_v, hchain, hrev]
  generalize _do_read_v lib leaf (hdf5_type t T) = x
  rcases x with ⟨calls, outcome, val⟩
  cases outcome <;> simp

/-- C10: for every chain `init ++ [leaf]` that `get_attribute` produces (root
first) whose handles are open, `read_attribute` reads from `leaf` only, closes
`leaf` with `H5Aclose` and next hands `init` reversed (leaf to root) to
`close_hdf_ids`, once; the handles released by the run are exactly the chain's,
each once, leaf first.  The same holds of a run of `read_attribute_v` that
returns, which also releases the dataspace handle it obtained from
`H5Aget_space`. -/
theorem read_attribute_releases_chain (t : Hdf5Types) (lib : AttrLibrary) (T : CType)
    (name : String) (init : List hid_t) (leaf : hid_t)
    (hchain : lib.get_attribute name = init ++ [leaf])
    (hopen : ∀ h ∈ init, lib.H5Iget_type h ≠ .H5I_BADID) :
    ((read_attribute t lib T name).outcome = .returned
      ∧ (read_attribute t lib T name).calls.filterMap Call.read_from = [leaf]
      ∧ [Call.H5Aclose leaf, Call.close_hdf_ids init.reverse]
          <:+: (read_attribute t lib T name).calls
      ∧ (read_attribute t lib T name).calls.filterMap Call.handed_to_close_hdf_ids
          = [init.reverse]
      ∧ (read_attribute t lib T name).calls.filterMap Call.released = leaf :: init.reverse
      ∧ ((read_attribute t lib T name).calls.filterMap Call.released).Perm (init ++ [leaf]))
    ∧ ((read_attribute_v t lib T name).outcome = .returned →
        (∀ h ∈ (read_attribute_v t lib T name).calls.filterMap Call.read_from, h = leaf)
        ∧ [Call.H5Aclose leaf, Call.close_hdf_ids init.reverse]
            <:+: (read_attribute_v t lib T name).calls
        ∧ (read_attribute_v t lib T name).calls.filterMap Call.handed_to_close_hdf_ids
            = [init.reverse]
        ∧ (read_attribute_v t lib T name).calls.filterMap Call.released
            = lib.H5Aget_space leaf :: leaf :: init.reverse
        ∧ ((read_attribute_v t lib T name).calls.filterMap Call.released).Perm
            (lib.H5Aget_space leaf :: (init ++ [leaf]))) := by
  have hrel := close_hdf_ids_released lib init.reverse
    (fun h hh => hopen h (List.mem_reverse.mp hh))
  obtain ⟨hrd, hhd⟩ := close_hdf_ids_only_closes lib init.reverse
  have hperm : (leaf :: init.reverse).Perm (init ++ [leaf]) := by
    have h1 : (init ++ [leaf]).reverse = leaf :: init.reverse := by simp
    rw [← h1]
    exact List.reverse_perm _
  have hrev : (init ++ [leaf]).reverse = leaf :: init.reverse := by simp
  constructor
  · simp only [read_attribute, hchain, hrev]
    refine ⟨trivial, ?_, ?_, ?_, ?_, ?_⟩
    · simp only [_do_read]
      split <;>
        simp [List.filterMap_append, List.filterMap_cons, Call.read_from, hrd]
    · exact ⟨[Call.get_attribute name] ++ (_do_read t lib T leaf (hdf5_type t T)).1,
        close_hdf_ids lib init.reverse, by simp⟩
    · simp only [_do_read]
      split <;>
        simp [List.filterMap_append, List.filterMap_cons, Call.handed_to_close_hdf_ids, hhd]
    · simp only [_do_read]
      split <;>
        simp [List.filterMap_append, List.filterMap_cons, Call.released, hrel]
    · have : ([Call.get_attribute name] ++ (_do_read t lib T leaf (hdf5_type t T)).1
          ++ [Call.H5Aclose leaf, Call.close_hdf_ids init.reverse]
          ++ close_hdf_ids lib init.reverse).filterMap Call.released = leaf :: init.reverse := by
        simp only [_do_read]
        split <;>
          simp [List.filterMap_append, List.filterMap_cons, Call.released, hrel]
      rw [this]
      exact hperm
  · intro hret
    rw [read_attribute_v_eq t lib T name init leaf hchain] at hret ⊢
    by_cases hdr : (_do_read_v lib leaf (hdf5_type t T)).2.1 = .returned
    · have hcalls := do_read_v_returned lib leaf (hdf5_type t T) hdr
      simp only [hdr, if_true, hcalls]
      refine ⟨?_, ?_, ?_, ?_, ?_⟩
      · simp [List.filterMap_append, List.filterMap_cons, Call.read_from, hrd]
      · exact ⟨[Call.get_attribute name, Call.H5Aget_space leaf,
          Call.H5Sget_simple_extent_npoints (lib.H5Aget_space leaf),
          Call.H5Aread leaf (hdf5_type t T), Call.H5Sclose (lib.H5Aget_space leaf)],
          close_hdf_ids lib init.reverse, by simp⟩
      · simp [List.filterMap_append, List.filterMap_cons, Call.handed_to_close_hdf_ids, hhd]
      · simp [List.filterMap_append, List.filterMap_cons, Call.released, hrel]
      · have : ([Call.get_attribute name] ++ [Call.H5Aget_space leaf,
            Call.H5Sget_simple_extent_npoints (lib.H5Aget_space leaf),
            Call.H5Aread leaf (hdf5_type t T), Call.H5Sclose (lib.H5Aget_space leaf)]
            ++ [Call.H5Aclose leaf, Call.close_hdf_ids init.reverse]
            ++ close_hdf_ids lib init.reverse).filterMap Call.released
            = lib.H5Aget_space leaf :: leaf :: init.reverse := by
          simp [List.filterMap_append, List.filterMap_cons, Call.released, hrel]
        rw [this]
        exact List.Perm.cons _ hperm
    · rw [if_neg hdr] at hret
      exact absurd hret hdr

/-- Witness for C10: the chain `[30, 31]` (a group, then the attribute): the
run reads from 31 and releases 31, then 30. -/
theorem read_attribute_releases_chain_witness :
    ((sampleLibrary (some ⟨.predefined 102, .scalar, .elements [42]⟩)).get_attribute "/g/a"
        = [30] ++ [31]
      ∧ ∀ h ∈ [(30 : hid_t)],
          (sampleLibrary (some ⟨.predefined 102, .scalar, .elements [42]⟩)).H5Iget_type h
            ≠ .H5I_BADID)
    ∧ (read_attribute sampleTypes (sampleLibrary (some ⟨.predefined 102, .scalar, .elements [42]⟩))
        .double "/g/a").calls.filterMap Call.released = [31, 30] :=
  ⟨⟨rfl, by decide⟩,
    (read_attribute_releases_chain sampleTypes
      (sampleLibrary (some ⟨.predefined 102, .scalar, .elements [42]⟩)) .double "/g/a" [30] 31
      rfl (by decide)).1.2.2.2.2.1⟩

/-- C7, as stated, fails.  The empty string is written as the one-character
string `" "`, and reading the attribute back yields `" "`, not `""`.  Writing
the empty vector reads `data[0]` of an empty vector: the run has no defined
behaviour and no attribute is written. -/
theorem attribute_roundtrip_fails_on_empty :
    (write_attribute_string sampleTypes sampleAttrReturns 1 "/g" "a" "").written
        = some ⟨.c_string 1, .scalar, .chars " "⟩
    ∧ (read_attribute sampleTypes
          (sampleLibrary (write_attribute_string sampleTypes sampleAttrReturns 1 "/g" "a"
            "").written) .string "/g/a").val = some (.string " ")
    ∧ Value.string " " ≠ Value.string ""
    ∧ (write_attribute_vector sampleTypes sampleAttrReturns 1 .double "/g" "a" []).outcome
        = .undefined
    ∧ (write_attribute_vector sampleTypes sampleAttrReturns 1 .double "/g" "a" []).written
        = none := by
  decide

/-- A count below `2 ^ 31` survives the conversion to `int`. -/
theorem toInt32_of_lt (n : Nat) (h : n < 2 ^ 31) : toInt32 (n : Int) = (n : Int) := by
  unfold toInt32
  have h1 : (0 : Int) ≤ (n : Int) + 2 ^ 31 := by positivity
  have h2 : (n : Int) + 2 ^ 31 < 2 ^ 32 := by
    have : (n : Int) < 2 ^ 31 := by exact_mod_cast h
    omega
  rw [Int.emod_eq_of_lt h1 h2]
  omega

/-- C7 (amended): let the `write_attribute` overloads succeed (the object is
opened, the attribute created, the write accepted) and let the chain that
`get_attribute` produces for the path of the attribute end in a handle `leaf`
that denotes the attribute just written.  Then `read_attribute<T>` returns `v` for every numeric scalar `v`;
for every non-empty string `s` it returns `s`, and for the empty string it
returns the one-blank string `" "`; and `read_attribute_v<T>` returns `w`, same
length and elements in the same order, for every non-empty vector `w` of fewer
than `2 ^ 31` elements of a numeric type. -/
theorem attribute_roundtrip (t : Hdf5Types) (r : AttrReturns) (file_id : hid_t)
    (lib : AttrLibrary) (parent name path : String) (init : List hid_t) (leaf : hid_t)
    (hopen : 0 ≤ r.H5Oopen) (hcreate : 0 ≤ r.H5Acreate) (hwrite : 0 ≤ r.H5Awrite)
    (hchain : lib.get_attribute path = init ++ [leaf]) :
    (∀ (T : CType) (v : Bits), hdf5_type t T ≠ t.H5T_C_S1 →
        lib.attr_of leaf = (write_attribute t r file_id T parent name v).written →
        (read_attribute t lib T path).val = some (.numeric v))
    ∧ (∀ s : String, s.length ≠ 0 →
        lib.attr_of leaf = (write_attribute_string t r file_id parent name s).written →
        (read_attribute t lib .string path).val = some (.string s))
    ∧ (lib.attr_of leaf = (write_attribute_string t r file_id parent name "").written →
        (read_attribute t lib .string path).val = some (.string " "))
    ∧ (∀ (T : CType) (w : List Bits), T ≠ .string → w ≠ [] → w.length < 2 ^ 31 →
        lib.attr_of leaf = (write_attribute_vector t r file_id T parent name w).written →
        (read_attribute_v t lib T path).outcome = .returned
        ∧ (read_attribute_v t lib T path).val = some w) := by
  have h1 : ¬ r.H5Oopen < 0 := not_lt.mpr hopen
  have h2 : ¬ r.H5Acreate < 0 := not_lt.mpr hcreate
  have h3 : ¬ r.H5Awrite < 0 := not_lt.mpr hwrite
  have hrev : (init ++ [leaf]).reverse = leaf :: init.reverse := by simp
  refine ⟨?_, ?_, ?_, ?_⟩
  · intro T v hT hleaf
    simp only [write_attribute, h1, h2, h3, if_false] at hleaf
    simp only [read_attribute, hchain, hrev, _do_read, if_neg hT, H5Aread, hleaf, if_true]
  · intro s hs hleaf
    simp only [write_attribute_string, h1, h2, h3, hs, if_false] at hleaf
    have hS : hdf5_type t .string = t.H5T_C_S1 := rfl
    simp only [read_attribute, hchain, hrev, _do_read, hS, if_true, _do_read_string, hleaf,
      Option.map_some']
  · intro hleaf
    have hlen : ("" : String).length = 0 := rfl
    simp only [write_attribute_string, h1, h2, h3, hlen, if_false, if_true] at hleaf
    have hS : hdf5_type t .string = t.H5T_C_S1 := rfl
    simp only [read_attribute, hchain, hrev, _do_read, hS, if_true, _do_read_string, hleaf,
      Option.map_some']
  · intro T w hT hw hlen hleaf
    cases w with
    | nil => exact absurd rfl hw
    | cons x xs =>
      simp only [write_attribute_vector, h1, h2, h3, if_false] at hleaf
      have hnp : H5Sget_simple_extent_npoints lib leaf = ((x :: xs).length : Int) := by
        simp [H5Sget_simple_extent_npoints, hleaf, Dataspace.npoints]
      have hrd : H5Aread lib leaf (hdf5_type t T) = some (x :: xs) := by
        simp [H5Aread, hleaf]
      have h32 : toInt32 (((x :: xs).length : Nat) : Int) = (((x :: xs).length : Nat) : Int) :=
        toInt32_of_lt _ hlen
      have hdr : _do_read_v lib leaf (hdf5_type t T)
          = ([Call.H5Aget_space leaf, Call.H5Sget_simple_extent_npoints (lib.H5Aget_space leaf),
              Call.H5Aread leaf (hdf5_type t T), Call.H5Sclose (lib.H5Aget_space leaf)],
            .returned, some (x :: xs)) := by
        have hnn : ¬ (((x :: xs).length : Nat) : Int) < 0 := by
          exact not_lt.mpr (Int.natCast_nonneg _)
        simp only [_do_read_v, hnp, h32, hnn, if_false, hrd, Int.toNat_ofNat, le_refl, if_true,
          Nat.sub_self, List.replicate_zero, List.append_nil, List.cons_append, List.nil_append]
      rw [read_attribute_v_eq t lib T path init leaf hchain, hdr]
      simp

/-- Witness for C7 (amended): the double `42`, the string `"abc"` and the vector
`[1, 2, 3]` are each read back from the attribute they were written to. -/
theorem attribute_roundtrip_witness :
    ((0 : Int) ≤ sampleAttrReturns.H5Oopen ∧ (0 : Int) ≤ sampleAttrReturns.H5Acreate
      ∧ (0 : Int) ≤ sampleAttrReturns.H5Awrite)
    ∧ (read_attribute sampleTypes
          (sampleLibrary (write_attribute sampleTypes sampleAttrReturns 1 .double "/g" "a"
            42).written) .double "/g/a").val = some (.numeric 42)
    ∧ (read_attribute sampleTypes
          (sampleLibrary (write_attribute_string sampleTypes sampleAttrReturns 1 "/g" "a"
            "abc").written) .string "/g/a").val = some (.string "abc")
    ∧ (read_attribute_v sampleTypes
          (sampleLibrary (write_attribute_vector sampleTypes sampleAttrReturns 1 .double "/g" "a"
            [1, 2, 3]).written) .double "/g/a").val = some [1, 2, 3] :=
  ⟨by decide,
    (attribute_roundtrip sampleTypes sampleAttrReturns 1
      (sampleLibrary (write_attribute sampleTypes sampleAttrReturns 1 .double "/g" "a"
        42).written) "/g" "a" "/g/a" [30] 31 (by decide) (by decide) (by decide) rfl).1
      .double 42 (by decide) rfl,
    (attribute_roundtrip sampleTypes sampleAttrReturns 1
      (sampleLibrary (write_attribute_string sampleTypes sampleAttrReturns 1 "/g" "a"
        "abc").written) "/g" "a" "/g/a" [30] 31 (by decide) (by decide) (by decide) rfl).2.1
      "abc" (by decide) rfl,
    ((attribute_roundtrip sampleTypes sampleAttrReturns 1
      (sampleLibrary (write_attribute_vector sampleTypes sampleAttrReturns 1 .double "/g" "a"
        [1, 2, 3]).written) "/g" "a" "/g/a" [30] 31 (by decide) (by decide) (by decide)
      rfl).2.2.2 .double [1, 2, 3] (by decide) (by decide) (by decide) rfl).2⟩

/-- Whether `create_group` throws is decided by the lookup under the value the
uninitialised `group_id` holds, not by a lookup under `file_id`. -/
theorem create_group_outcome (lib : GroupLibrary) (file_id uninitialized_group_id : hid_t)
    (groupname : String) :
    ((create_group lib file_id uninitialized_group_id groupname).outcome = .threw
      ↔ lib.H5Lexists uninitialized_group_id groupname ≠ 0)
    ∧ ((create_group lib file_id uninitialized_group_id groupname).outcome = .returned
      ↔ lib.H5Lexists uninitialized_group_id groupname = 0) := by
  unfold create_group
  by_cases h : lib.H5Lexists uninitialized_group_id groupname = 0 <;> simp [h]

/-- C11, evaluated where it fails: the open file (handle 1) holds no link named
`g`, the uninitialised `group_id` holds 7, which is no open location, so the
lookup fails with a negative answer; `create_group("g")` throws
`invalid_argument` and never calls `H5Gcreate`. -/
theorem create_group_throws_without_link :
    sampleGroupLibrary.H5Lexists 1 "g" = 0
    ∧ create_group sampleGroupLibrary 1 7 "g"
      = ⟨[Call.H5Lexists 7 "g" 0,
          Call.invalid_argument "Group galready present, not creating group"],
        .threw, none⟩ := by
  decide

/-- The creation calls hand one element type to dataset creation and none to a
write. -/
theorem create_calls_types (b : Build) (t : Hdf5Types) (r : Hdf5Returns) (file_id : hid_t)
    (T : CType) (name : String) (rank : Int) (dims : List hsize_t)
    (memtype_id filetype_id : hid_t) (flag_parallel : Bool) :
    (create_calls b t r file_id T name rank dims memtype_id filetype_id
        flag_parallel).filterMap Call.dataset_type
      = [if filetype_id < 0 then (if memtype_id = -1 then hdf5_type t T else memtype_id)
          else filetype_id]
    ∧ (create_calls b t r file_id T name rank dims memtype_id filetype_id
        flag_parallel).filterMap Call.write_mem_type = [] := by
  by_cases hc : b.USEHDFCOMPRESSION = true <;>
    simp [create_calls, hc, List.filterMap_cons, Call.dataset_type, Call.write_mem_type]

/-- C12: on every run of the typed driver that gets as far as creating the
dataset (non-negative rank), the element type handed to `H5Dcreate` is the
caller's `filetype_id` when it is at least 0, and otherwise the memory type:
the caller's `memtype_id` unless that is -1, in which case `hdf5_type(T)`.  Any
`H5Dwrite` of the run is handed that same memory type, and one is issued
whenever the dataset is created and `dims[0] > 0`. -/
theorem write_dataset_nd_element_types (b : Build) (t : Hdf5Types)
    (r : Hdf5Returns) (file_id : hid_t) (T : CType) (name : String) (rank : Int)
    (dims : List hsize_t) (data : Ptr) (count start : List hsize_t)
    (memtype_id filetype_id : hid_t)
    (flag_parallel flag_first_dim_parallel flag_hyperslab flag_collective : Bool)
    (hrank : 0 ≤ rank) :
    (write_dataset_nd b t r file_id T name rank dims data count start memtype_id
        filetype_id flag_parallel flag_first_dim_parallel flag_hyperslab
        flag_collective).calls.filterMap Call.dataset_type
      = [if 0 ≤ filetype_id then filetype_id
          else if memtype_id = -1 then hdf5_type t T else memtype_id]
    ∧ (∀ m ∈ (write_dataset_nd b t r file_id T name rank dims data count start memtype_id
        filetype_id flag_parallel flag_first_dim_parallel flag_hyperslab
        flag_collective).calls.filterMap Call.write_mem_type,
        m = if memtype_id = -1 then hdf5_type t T else memtype_id)
    ∧ (∀ d0 rest, dims = d0 :: rest → 0 ≤ r.H5Dcreate → 0 < d0 →
        (write_dataset_nd b t r file_id T name rank dims data count start memtype_id
          filetype_id flag_parallel flag_first_dim_parallel flag_hyperslab
          flag_collective).calls.filterMap Call.write_mem_type
        = [if memtype_id = -1 then hdf5_type t T else memtype_id]) := by
  obtain ⟨hd, hw⟩ := create_calls_types b t r file_id T name rank dims memtype_id filetype_id
    flag_parallel
  have hft : (if filetype_id < 0 then (if memtype_id = -1 then hdf5_type t T else memtype_id)
      else filetype_id)
      = (if 0 ≤ filetype_id then filetype_id
          else if memtype_id = -1 then hdf5_type t T else memtype_id) := by
    by_cases hf : filetype_id < 0
    · rw [if_pos hf, if_neg (not_le.mpr hf)]
    · rw [if_neg hf, if_pos (not_lt.mp hf)]
  rw [hft] at hd
  by_cases hcreate : r.H5Dcreate < 0
  · rw [write_dataset_nd_create_failed b t r file_id T name rank dims data count start
      memtype_id filetype_id flag_parallel flag_first_dim_parallel flag_hyperslab
      flag_collective hrank hcreate]
    refine ⟨?_, ?_, ?_⟩
    · simp [List.filterMap_append, hd, Call.dataset_type]
    · simp [List.filterMap_append, hw, Call.write_mem_type]
    · intro d0 rest _ hc
      exact absurd hcreate (not_lt.mpr hc)
  · have hc : 0 ≤ r.H5Dcreate := not_lt.mp hcreate
    cases dims with
    | nil =>
      rw [write_dataset_nd_empty_dims b t r file_id T name rank data count start
        memtype_id filetype_id flag_parallel flag_first_dim_parallel flag_hyperslab
        flag_collective hrank hc]
      refine ⟨?_, ?_, ?_⟩
      · simp [List.filterMap_append, hd, Call.dataset_type]
      · simp [List.filterMap_append, hw, Call.write_mem_type]
      · intro d0 rest hnil
        exact absurd hnil (by simp)
    | cons e es =>
      rw [write_dataset_nd_calls b t r file_id T name rank e es data count start
        memtype_id filetype_id flag_parallel flag_first_dim_parallel flag_hyperslab
        flag_collective hrank hc]
      refine ⟨?_, ?_, ?_⟩
      · simp only [List.filterMap_append, hd]
        by_cases hpos : 0 < e <;> by_cases hwr : r.H5Dwrite < 0 <;>
          by_cases hs : (!count.isEmpty && !start.isEmpty) = true <;>
          simp [hpos, hwr, hs, Call.dataset_type, List.filterMap_cons]
      · simp only [List.filterMap_append, hw]
        by_cases hpos : 0 < e <;> by_cases hwr : r.H5Dwrite < 0 <;>
          by_cases hs : (!count.isEmpty && !start.isEmpty) = true <;>
          simp [hpos, hwr, hs, Call.write_mem_type, List.filterMap_cons]
      · intro d0 rest hcons _ hpos
        obtain ⟨rfl, rfl⟩ := List.cons.inj hcons
        simp only [List.filterMap_append, hw]
        by_cases hwr : r.H5Dwrite < 0 <;>
          by_cases hs : (!count.isEmpty && !start.isEmpty) = true <;>
          simp [hpos, hwr, hs, Call.write_mem_type, List.filterMap_cons]

/-- Witness for C12: a `double` buffer written with both type arguments left at
-1 creates the dataset with, and writes from, `H5T_NATIVE_DOUBLE`; with
`filetype_id` given as `H5T_NATIVE_FLOAT` the dataset is created with that. -/
theorem write_dataset_nd_element_types_witness :
    (0 : Int) ≤ 1
    ∧ (write_dataset_nd ⟨false⟩ sampleTypes ⟨5, 0, 6, 0, 0⟩ 1 .double "/d" 1 [10] 0 [] []
        (-1) (-1) true true true true).calls.filterMap Call.dataset_type
      = [sampleTypes.H5T_NATIVE_DOUBLE]
    ∧ (write_dataset_nd ⟨false⟩ sampleTypes ⟨5, 0, 6, 0, 0⟩ 1 .double "/d" 1 [10] 0 [] []
        (-1) sampleTypes.H5T_NATIVE_FLOAT true true true true).calls.filterMap Call.dataset_type
      = [sampleTypes.H5T_NATIVE_FLOAT]
    ∧ (write_dataset_nd ⟨false⟩ sampleTypes ⟨5, 0, 6, 0, 0⟩ 1 .double "/d" 1 [10] 0 [] []
        (-1) (-1) true true true true).calls.filterMap Call.write_mem_type
      = [sampleTypes.H5T_NATIVE_DOUBLE] :=
  ⟨by decide,
    (write_dataset_nd_element_types ⟨false⟩ sampleTypes ⟨5, 0, 6, 0, 0⟩ 1 .double "/d" 1 [10] 0
      [] [] (-1) (-1) true true true true (by decide)).1,
    (write_dataset_nd_element_types ⟨false⟩ sampleTypes ⟨5, 0, 6, 0, 0⟩ 1 .double "/d" 1 [10] 0
      [] [] (-1) sampleTypes.H5T_NATIVE_FLOAT true true true true (by decide)).1,
    (write_dataset_nd_element_types ⟨false⟩ sampleTypes ⟨5, 0, 6, 0, 0⟩ 1 .double "/d" 1 [10] 0
      [] [] (-1) (-1) true true true true (by decide)).2.2 10 [] rfl (by decide) (by decide)⟩

/-- A call of the fatal sink is the last call of a run of the typed driver, the
run is then aborted, and the call has one of two causes, each with its own
message. -/
theorem write_dataset_nd_io_errors (b : Build) (t : Hdf5Types)
    (r : Hdf5Returns) (file_id : hid_t) (T : CType) (name : String) (rank : Int)
    (dims : List hsize_t) (data : Ptr) (count start : List hsize_t)
    (memtype_id filetype_id : hid_t)
    (flag_parallel flag_first_dim_parallel flag_hyperslab flag_collective : Bool)
    (message : String)
    (h : Call.io_error message ∈ (write_dataset_nd b t r file_id T name rank dims data count
      start memtype_id filetype_id flag_parallel flag_first_dim_parallel flag_hyperslab
      flag_collective).calls) :
    ((r.H5Dcreate < 0 ∧ message = "Failed to create dataset: " ++ name)
      ∨ (r.H5Dwrite < 0 ∧ message = "Failed to write dataset: " ++ name))
    ∧ [Call.io_error message] <:+ (write_dataset_nd b t r file_id T name rank dims data count
        start memtype_id filetype_id flag_parallel flag_first_dim_parallel flag_hyperslab
        flag_collective).calls
    ∧ (write_dataset_nd b t r file_id T name rank dims data count start memtype_id
        filetype_id flag_parallel flag_first_dim_parallel flag_hyperslab
        flag_collective).outcome = .aborted := by
  have hmem : ∀ l : List Call, Call.io_error message ∈ l →
      Call.io_error message ∈ l.filter Call.isio_error :=
    fun l hl => List.mem_filter.mpr ⟨hl, rfl⟩
  have hf := (create_calls_filters b t r file_id T name rank dims memtype_id filetype_id
    flag_parallel).2.2.2.2
  by_cases hrank : rank < 0
  · rw [write_dataset_nd_negative_rank b t r file_id T name rank dims data count start
      memtype_id filetype_id flag_parallel flag_first_dim_parallel flag_hyperslab
      flag_collective hrank] at h
    exact absurd h (List.not_mem_nil _)
  · have h0 : 0 ≤ rank := not_lt.mp hrank
    by_cases hcreate : r.H5Dcreate < 0
    · rw [write_dataset_nd_create_failed b t r file_id T name rank dims data count start
        memtype_id filetype_id flag_parallel flag_first_dim_parallel flag_hyperslab
        flag_collective h0 hcreate] at h ⊢
      have h' := hmem _ h
      simp only [List.filter_append, hf, List.nil_append] at h'
      have hm : message = "Failed to create dataset: " ++ name := by
        simpa [List.filter_cons, Call.isio_error] using h'
      subst hm
      exact ⟨Or.inl ⟨hcreate, rfl⟩, List.suffix_append _ _, rfl⟩
    · have hc : 0 ≤ r.H5Dcreate := not_lt.mp hcreate
      cases dims with
      | nil =>
        rw [write_dataset_nd_empty_dims b t r file_id T name rank data count start
          memtype_id filetype_id flag_parallel flag_first_dim_parallel flag_hyperslab
          flag_collective h0 hc] at h
        have h' := hmem _ h
        simp [List.filter_append, hf, List.filter_cons, Call.isio_error] at h'
      | cons d0 rest =>
        have hcalls := write_dataset_nd_calls b t r file_id T name rank d0 rest data count start
          memtype_id filetype_id flag_parallel flag_first_dim_parallel flag_hyperslab
          flag_collective h0 hc
        have hout := write_dataset_nd_outcome b t r file_id T name rank d0 rest data count start
          memtype_id filetype_id flag_parallel flag_first_dim_parallel flag_hyperslab
          flag_collective h0 hc
        rw [hcalls] at h ⊢
        rw [hout]
        have h' := hmem _ h
        simp only [List.filter_append, hf, List.nil_append] at h'
        by_cases hfail : 0 < d0 ∧ r.H5Dwrite < 0
        · rw [if_pos hfail] at h' ⊢
          rw [if_pos hfail]
          have hm : message = "Failed to write dataset: " ++ name := by
            by_cases hs : (!count.isEmpty && !start.isEmpty) = true <;>
              simpa [hfail.1, hs, List.filter_cons, Call.isio_error] using h'
          subst hm
          exact ⟨Or.inr ⟨hfail.2, rfl⟩, List.suffix_append _ _, rfl⟩
        · rw [if_neg hfail] at h'
          exfalso
          by_cases hd : 0 < d0 <;>
            by_cases hs : (!count.isEmpty && !start.isEmpty) = true <;>
            simp [hd, hs, List.filter_cons, Call.isio_error] at h'

/-- C13: whenever a run of the typed driver calls the fatal sink, the cause is a
failed dataset creation, with message `"Failed to create dataset: " + name`, or
a failed write, with message `"Failed to write dataset: " + name`; either way
the caller's dataset name is a substring of the message, and the call is the
last thing the run does.  `io_error` writes that message to `std::cerr` first
and only then calls `MPI_Abort` (under `USEMPI`) and `abort`. -/
theorem write_dataset_nd_diagnostic_names_dataset (b : Build) (t : Hdf5Types)
    (r : Hdf5Returns) (file_id : hid_t) (T : CType) (name : String) (rank : Int)
    (dims : List hsize_t) (data : Ptr) (count start : List hsize_t)
    (memtype_id filetype_id : hid_t)
    (flag_parallel flag_first_dim_parallel flag_hyperslab flag_collective : Bool)
    (USEMPI : Bool) (message : String)
    (h : Call.io_error message ∈ (write_dataset_nd b t r file_id T name rank dims data count
      start memtype_id filetype_id flag_parallel flag_first_dim_parallel flag_hyperslab
      flag_collective).calls) :
    ((r.H5Dcreate < 0 ∧ message = "Failed to create dataset: " ++ name)
      ∨ (r.H5Dwrite < 0 ∧ message = "Failed to write dataset: " ++ name))
    ∧ (∃ before after : String, message = before ++ name ++ after)
    ∧ [Call.io_error message] <:+ (write_dataset_nd b t r file_id T name rank dims data count
        start memtype_id filetype_id flag_parallel flag_first_dim_parallel flag_hyperslab
        flag_collective).calls
    ∧ (write_dataset_nd b t r file_id T name rank dims data count start memtype_id
        filetype_id flag_parallel flag_first_dim_parallel flag_hyperslab
        flag_collective).outcome = .aborted
    ∧ (∃ aborts, (io_error USEMPI message).calls = Call.cerr message :: aborts
        ∧ aborts ≠ [] ∧ Call.cerr message ∉ aborts
        ∧ ∀ c ∈ aborts, c = Call.MPI_Abort 1 ∨ c = Call.abort)
    ∧ (io_error USEMPI message).outcome = .aborted := by
  obtain ⟨hcause, hlast, hout⟩ := write_dataset_nd_io_errors b t r file_id T name rank dims data
    count start memtype_id filetype_id flag_parallel flag_first_dim_parallel flag_hyperslab
    flag_collective message h
  refine ⟨hcause, ?_, hlast, hout, ?_, rfl⟩
  · rcases hcause with ⟨_, hm⟩ | ⟨_, hm⟩
    · exact ⟨"Failed to create dataset: ", "", by rw [hm, String.append_empty]⟩
    · exact ⟨"Failed to write dataset: ", "", by rw [hm, String.append_empty]⟩
  · cases USEMPI
    · exact ⟨[Call.abort], rfl, by simp, by simp, by simp⟩
    · exact ⟨[Call.MPI_Abort 1, Call.abort], rfl, by simp, by simp, by simp⟩

/-- Witness for C13: creation of the dataset `/d` fails; the sink is called with
`"Failed to create dataset: /d"`, and `io_error` prints it before aborting. -/
theorem write_dataset_nd_diagnostic_names_dataset_witness :
    Call.io_error "Failed to create dataset: /d"
      ∈ (write_dataset_nd ⟨false⟩ sampleTypes ⟨5, 0, -1, 0, 0⟩ 1 .double "/d" 1 [10] 0 [] []
          (-1) (-1) true true true true).calls
    ∧ (∃ before after : String, "Failed to create dataset: /d" = before ++ "/d" ++ after)
    ∧ (io_error false "Failed to create dataset: /d").calls
        = [Call.cerr "Failed to create dataset: /d", Call.abort] :=
  ⟨by decide,
    (write_dataset_nd_diagnostic_names_dataset ⟨false⟩ sampleTypes ⟨5, 0, -1, 0, 0⟩ 1 .double
      "/d" 1 [10] 0 [] [] (-1) (-1) true true true true false "Failed to create dataset: /d"
      (by decide)).2.1,
    rfl⟩

/-- C14: `hdf5_type_from_string` gives each of the eight short type names the
tag `hdf5_type` gives the corresponding element type, and every other string,
the empty string and a name in another case included, the tag `H5T_C_S1`. -/
theorem hdf5_type_from_string_agrees (t : Hdf5Types) (dummy : String)
    (hother : dummy ∉ ["float32", "float64", "int16", "int32", "int64", "uint16", "uint32",
      "uint64"]) :
    hdf5_type_from_string t "float32" = hdf5_type t .float
    ∧ hdf5_type_from_string t "float64" = hdf5_type t .double
    ∧ hdf5_type_from_string t "int16" = hdf5_type t .short
    ∧ hdf5_type_from_string t "int32" = hdf5_type t .int
    ∧ hdf5_type_from_string t "int64" = hdf5_type t .long_long
    ∧ hdf5_type_from_string t "uint16" = hdf5_type t .unsigned_short
    ∧ hdf5_type_from_string t "uint32" = hdf5_type t .unsigned_int
    ∧ hdf5_type_from_string t "uint64" = hdf5_type t .unsigned_long_long
    ∧ hdf5_type_from_string t dummy = t.H5T_C_S1
    ∧ hdf5_type_from_string t "" = t.H5T_C_S1
    ∧ hdf5_type_from_string t "Float32" = t.H5T_C_S1
    ∧ hdf5_type_from_string t "FLOAT64" = t.H5T_C_S1 := by
  simp only [List.mem_cons, List.mem_singleton, List.not_mem_nil, or_false, not_or] at hother
  obtain ⟨h1, h2, h3, h4, h5, h6, h7, h8⟩ := hother
  refine ⟨?_, ?_, ?_, ?_, ?_, ?_, ?_, ?_, ?_, ?_, ?_, ?_⟩
  · simp [hdf5_type_from_string, hdf5_type]
  · simp [hdf5_type_from_string, hdf5_type]
  · simp [hdf5_type_from_string, hdf5_type]
  · simp [hdf5_type_from_string, hdf5_type]
  · simp [hdf5_type_from_string, hdf5_type]
  · simp [hdf5_type_from_string, hdf5_type]
  · simp [hdf5_type_from_string, hdf5_type]
  · simp [hdf5_type_from_string, hdf5_type]
  · simp [hdf5_type_from_string, h1, h2, h3, h4, h5, h6, h7, h8]
  · simp [hdf5_type_from_string]
  · simp [hdf5_type_from_string]
  · simp [hdf5_type_from_string]

/-- Witness for C14: `"Float32"` is none of the eight names and maps to
`H5T_C_S1`. -/
theorem hdf5_type_from_string_agrees_witness :
    "Float32" ∉ ["float32", "float64", "int16", "int32", "int64", "uint16", "uint32", "uint64"]
    ∧ hdf5_type_from_string sampleTypes "Float32" = sampleTypes.H5T_C_S1
    ∧ hdf5_type_from_string sampleTypes "int64" = hdf5_type sampleTypes .long_long :=
  ⟨by decide,
    (hdf5_type_from_string_agrees sampleTypes "Float32" (by decide)).2.2.2.2.2.2.2.2.1,
    (hdf5_type_from_string_agrees sampleTypes "Float32" (by decide)).2.2.2.2.1⟩

/-- What each 1-D wrapper hands on, for all arguments: rank 1, `dims = [len]`
and the resolved memory type, but the caller's `flag_hyperslab` arrives as
`flag_first_dim_parallel`, the caller's `flag_collective` as `flag_hyperslab`,
and `flag_collective` is always `true`. -/
theorem wrappers_shift_flags (t : Hdf5Types) (T : CType) (name : String) (len : hsize_t)
    (data : Ptr) (count start : List hsize_t) (memtype_id filetype_id : hid_t)
    (flag_parallel flag_hyperslab flag_collective : Bool) :
    write_dataset t T name len data memtype_id filetype_id flag_parallel flag_hyperslab
        flag_collective
      = { nd_call_unchanged_flags .write_dataset_nd_typed t T name len data none none memtype_id
            filetype_id flag_parallel flag_hyperslab flag_collective with
          flag_first_dim_parallel := flag_hyperslab
          flag_hyperslab := flag_collective
          flag_collective := true }
    ∧ write_dataset_count_start t T name len data count start memtype_id filetype_id
        flag_parallel flag_hyperslab flag_collective
      = { nd_call_unchanged_flags .write_dataset_nd_typed_count_start t T name len data
            (some count) (some start) memtype_id filetype_id flag_parallel flag_hyperslab
            flag_collective with
          flag_first_dim_parallel := flag_hyperslab
          flag_hyperslab := flag_collective
          flag_collective := true }
    ∧ write_to_dataset t T name len data count start memtype_id filetype_id
        flag_parallel flag_hyperslab flag_collective
      = { nd_call_unchanged_flags .write_to_dataset_nd_typed t T name len data
            (some count) (some start) memtype_id filetype_id flag_parallel flag_hyperslab
            flag_collective with
          flag_first_dim_parallel := flag_hyperslab
          flag_hyperslab := flag_collective
          flag_collective := true } :=
  ⟨rfl, rfl, rfl⟩

/-- C15, evaluated where it fails: each 1-D wrapper called with
`flag_parallel = true`, `flag_hyperslab = false`, `flag_collective = true`.
The n-dimensional routine receives `flag_first_dim_parallel = false` and
`flag_hyperslab = true`, not `flag_first_dim_parallel = true` and
`flag_hyperslab = false`; rank and `dims` are 1 and `[len]`. -/
theorem wrappers_pass_flags_shifted :
    (write_dataset sampleTypes .double "/d" 10 0 (-1) (-1) true false true
        = { routine := .write_dataset_nd_typed
            name := "/d", rank := 1, dims := [10], data := 0, count := none, start := none
            memtype_id := 102, filetype_id := -1
            flag_parallel := true, flag_first_dim_parallel := false
            flag_hyperslab := true, flag_collective := true }
      ∧ write_dataset sampleTypes .double "/d" 10 0 (-1) (-1) true false true
        ≠ nd_call_unchanged_flags .write_dataset_nd_typed sampleTypes .double "/d" 10 0 none none
            (-1) (-1) true false true)
    ∧ (write_dataset_count_start sampleTypes .double "/d" 10 0 [3] [2] (-1) (-1) true false true
        = { routine := .write_dataset_nd_typed_count_start
            name := "/d", rank := 1, dims := [10], data := 0
            count := some [3], start := some [2]
            memtype_id := 102, filetype_id := -1
            flag_parallel := true, flag_first_dim_parallel := false
            flag_hyperslab := true, flag_collective := true }
      ∧ write_dataset_count_start sampleTypes .double "/d" 10 0 [3] [2] (-1) (-1) true false true
        ≠ nd_call_unchanged_flags .write_dataset_nd_typed_count_start sampleTypes .double "/d" 10
            0 (some [3]) (some [2]) (-1) (-1) true false true)
    ∧ (write_to_dataset sampleTypes .double "/d" 10 0 [3] [2] (-1) (-1) true false true
        = { routine := .write_to_dataset_nd_typed
            name := "/d", rank := 1, dims := [10], data := 0
            count := some [3], start := some [2]
            memtype_id := 102, filetype_id := -1
            flag_parallel := true, flag_first_dim_parallel := false
            flag_hyperslab := true, flag_collective := true }
      ∧ write_to_dataset sampleTypes .double "/d" 10 0 [3] [2] (-1) (-1) true false true
        ≠ nd_call_unchanged_flags .write_to_dataset_nd_typed sampleTypes .double "/d" 10
            0 (some [3]) (some [2]) (-1) (-1) true false true) := by
  decide

/-- What the typed pointer overloads hand to the untyped routine as memory
type, for all arguments: `hdf5_type(T)`, whatever the caller's `memtype_id`. -/
theorem typed_overloads_overwrite_memtype (t : Hdf5Types) (T : CType) (name : String)
    (rank : Int) (dims : List hsize_t) (len : hsize_t) (data : Ptr)
    (count start : List hsize_t) (memtype_id filetype_id : hid_t)
    (flag_parallel flag_first_dim_parallel flag_hyperslab flag_collective : Bool) :
    (write_dataset_nd_typed t T name rank dims data memtype_id filetype_id flag_parallel
        flag_first_dim_parallel flag_hyperslab flag_collective).memtype_id = hdf5_type t T
    ∧ (write_to_dataset_nd_typed t T name rank dims data count start memtype_id filetype_id
        flag_parallel flag_first_dim_parallel flag_hyperslab flag_collective).memtype_id
      = hdf5_type t T
    ∧ (write_dataset_reaches t T name len data memtype_id filetype_id flag_parallel
        flag_hyperslab flag_collective).memtype_id = hdf5_type t T :=
  ⟨rfl, rfl, rfl⟩

/-- C16, evaluated where it fails: a `double` buffer with the caller's
`memtype_id` given as `H5T_NATIVE_FLOAT` (101 here, not -1).  Both typed pointer
overloads, and the 1-D `write_dataset` wrapper through the first of them, hand
`H5T_NATIVE_DOUBLE` (102) to the untyped routine, not the caller's 101. -/
theorem typed_overloads_drop_callers_memtype :
    sampleTypes.H5T_NATIVE_FLOAT = 101 ∧ (101 : hid_t) ≠ -1
    ∧ write_dataset_nd_typed sampleTypes .double "/d" 1 [10] 0 101 (-1) true true true true
      = { routine := .write_dataset_nd_void
          name := "/d", rank := 1, dims := [10], data := 0, count := none, start := none
          memtype_id := 102, filetype_id := -1
          flag_parallel := true, flag_first_dim_parallel := true
          flag_hyperslab := true, flag_collective := true }
    ∧ write_to_dataset_nd_typed sampleTypes .double "/d" 1 [10] 0 [3] [2] 101 (-1) true true
        true true
      = { routine := .write_to_dataset_nd_void
          name := "/d", rank := 1, dims := [10], data := 0
          count := some [3], start := some [2]
          memtype_id := 102, filetype_id := -1
          flag_parallel := true, flag_first_dim_parallel := true
          flag_hyperslab := true, flag_collective := true }
    ∧ (write_dataset sampleTypes .double "/d" 10 0 101 (-1) true true true).memtype_id = 101
    ∧ (write_dataset_reaches sampleTypes .double "/d" 10 0 101 (-1) true true true).memtype_id
      = 102 := by
  decide

end H5OutputFile

end HDF5Wrapper
